import Mathlib

/-!
Verification of the browser-agent control loop.

A shallow embedding, in Lean 4, of the core components of the browser
automation agent:

* `TaskPlanner` (`isMultiStep`, `calculateStepBudget`) from the planner module;
* `ProgressTracker` (cursor over sub-goals) and `ExecutionOptimizer`
  (action validation, recording, retry counters);
* the `BrowserAgent` class from `agent.js`: `detectLoop`,
  `isProductiveIteration`, `executeAction`'s control flow, the per-run state
  reset and the `run()` step loop.

JavaScript strings are Lean `String`s, numbers are `Nat`/`Int` (loop
confidences on a 0–100 integer percent scale), objects are
structures, `undefined`/`null` fields are `Option`s, and the JS `Map`s and
plain objects used as dictionaries are association lists that preserve
insertion order (matching JS object key-enumeration order).  External
asynchronous services (the LLM HTTP client, the DOM/content-script layer,
`Date.now`, and the user's cooperative stop button) are inputs: each loop
iteration consumes one `StepOracle` that carries the values those calls
returned.  All definitions are executable.
-/

set_option maxHeartbeats 1000000

namespace BrowserAgentProofs

/-! ## JavaScript string primitives

`String.prototype.includes` (substring test), modelled on lists of
characters. -/

/-- `matchesAt s p`: `p` is a prefix of `s` (character by character). -/
def matchesAt : List Char → List Char → Bool
  | _, [] => true
  | [], _ :: _ => false
  | c :: cs, p :: ps => c == p && matchesAt cs ps

/-- `containsSub s p`: `p` occurs as a contiguous substring of `s`. -/
def containsSub : List Char → List Char → Bool
  | [], p => p.isEmpty
  | s@(_ :: cs), p => matchesAt s p || containsSub cs p

/-- JS `s.includes(pat)`. -/
def strIncludes (s pat : String) : Bool :=
  containsSub s.data pat.data

/-- JS `s.toLowerCase()`, character by character (kernel-reducible, unlike
`String.toLower`). -/
def jsToLower (s : String) : String :=
  ⟨s.data.map Char.toLower⟩

/-! ## TaskPlanner (planner module)

Static, pure functions over the task string. -/

namespace TaskPlanner

/-- The sequence keywords of `isMultiStep` (the source list *includes*
`"and"`). -/
def sequenceKeywords : List String := ["and", "then", "after", "next", "followed by"]

/-- Content-extraction keywords of `isMultiStep`. -/
def extractionKeywords : List String :=
  ["tell me", "what is", "find out", "show me", "extract", "get the"]

/-- The fixed action-verb vocabulary of `isMultiStep`. -/
def actionVerbs : List String :=
  ["search", "find", "open", "click", "navigate", "go to", "extract", "get", "tell", "show"]

/-- `TaskPlanner.isMultiStep(task)`.  The `!task` guard of the source maps
the empty string (the only falsy value of JS string type) to `false`. -/
def isMultiStep (task : String) : Bool :=
  if task = "" then false
  else
    let lowerTask := jsToLower task
    let hasSequenceKeyword := sequenceKeywords.any (fun kw => strIncludes lowerTask kw)
    let hasExtractionKeyword := extractionKeywords.any (fun kw => strIncludes lowerTask kw)
    let verbMatches := actionVerbs.filter (fun v => strIncludes lowerTask v)
    hasSequenceKeyword || (hasExtractionKeyword && verbMatches.length ≥ 1) ||
      decide (verbMatches.length ≥ 2)

/-- The spec sentence for `isMultiStep` (claim C8), stated in the spec's own
words: the sequence connectives are only `"then"`, `"after"`, `"next"`,
`"followed by"` — the source's `"and"` is *not* among them. -/
def specSequenceConnectives : List String := ["then", "after", "next", "followed by"]

/-- `isMultiStep` as the spec words it (claim C8), for comparison with the
source definition: multi-step iff the lowercased text contains one of
`specSequenceConnectives`, or an extraction keyword together with at least
one action verb, or at least two distinct action verbs. -/
def isMultiStepClaim (task : String) : Bool :=
  let lowerTask := jsToLower task
  let hasSequenceKeyword := specSequenceConnectives.any (fun kw => strIncludes lowerTask kw)
  let hasExtractionKeyword := extractionKeywords.any (fun kw => strIncludes lowerTask kw)
  let verbMatches := actionVerbs.filter (fun v => strIncludes lowerTask v)
  hasSequenceKeyword || (hasExtractionKeyword && verbMatches.length ≥ 1) ||
    decide (verbMatches.length ≥ 2)

/-- The amended spec sentence for `isMultiStep`: identical to
`isMultiStepClaim` except that the sequence-connective list additionally
contains `"and"` (as in the source's `sequenceKeywords`). -/
def isMultiStepAmended (task : String) : Bool :=
  let lowerTask := jsToLower task
  let hasSequenceKeyword := sequenceKeywords.any (fun kw => strIncludes lowerTask kw)
  let hasExtractionKeyword := extractionKeywords.any (fun kw => strIncludes lowerTask kw)
  let verbMatches := actionVerbs.filter (fun v => strIncludes lowerTask v)
  hasSequenceKeyword || (hasExtractionKeyword && verbMatches.length ≥ 1) ||
    decide (verbMatches.length ≥ 2)

end TaskPlanner

/-! ## SubGoal records (created by `generateSubGoals`, mutated by
`calculateStepBudget` and the `ProgressTracker`) -/

/-- One sub-goal object.  `estimatedSteps = 0` stands for a missing/zero JS
value (both are falsy, so `sg.estimatedSteps || 3` treats them alike);
`completedAt` carries the `Date.now()` stamp. -/
structure SubGoal where
  id : Nat := 0
  description : String := ""
  type : String := ""
  completionCriteria : String := ""
  estimatedSteps : Nat := 0
  completed : Bool := false
  skipped : Bool := false
  skipReason : Option String := none
  completedAt : Option Nat := none
  result : Option String := none
  deriving DecidableEq, Repr, Inhabited

namespace TaskPlanner

/-- JS `(sg.estimatedSteps || 3)`: the falsy value `0` defaults to `3`. -/
def effSteps (sg : SubGoal) : Nat :=
  if sg.estimatedSteps = 0 then 3 else sg.estimatedSteps

/-- The proportional share of one sub-goal before the floor-at-1 adjustment:
`Math.floor(totalBudget * ((sg.estimatedSteps || 3) / totalEstimatedSteps))`,
as exact integer division. -/
def rawShare (totalBudget totalEstimatedSteps : Nat) (sg : SubGoal) : Nat :=
  totalBudget * effSteps sg / totalEstimatedSteps

/-- The allocation loop of `calculateStepBudget` (lines 290–312 of the
planner).  Every sub-goal but the last gets its `rawShare`, the raw value is
added to `allocatedSteps` *before* the floor-at-1 adjustment, and the last
sub-goal gets `totalBudget - allocatedSteps`; each stored value is then
raised to `1` if it is below `1`. -/
def allocate (totalBudget totalEstimatedSteps : Nat) :
    List SubGoal → Nat → List SubGoal
  | [], _ => []
  | [sg], allocatedSteps =>
      let v := totalBudget - allocatedSteps
      [{ sg with estimatedSteps := if v < 1 then 1 else v }]
  | sg :: sg' :: rest, allocatedSteps =>
      let raw := rawShare totalBudget totalEstimatedSteps sg
      { sg with estimatedSteps := if raw < 1 then 1 else raw } ::
        allocate totalBudget totalEstimatedSteps (sg' :: rest) (allocatedSteps + raw)

/-- `TaskPlanner.calculateStepBudget(subGoals)`.  Returns the budget and the
sub-goal list with the rebalanced `estimatedSteps` fields (the source
mutates the array in place). -/
def calculateStepBudget (subGoals : List SubGoal) : Nat × List SubGoal :=
  if subGoals.length ≤ 1 then (30, subGoals)
  else
    let subGoalCount := subGoals.length
    let totalBudget :=
      if 2 ≤ subGoalCount ∧ subGoalCount ≤ 3 then 50
      else if 4 ≤ subGoalCount ∧ subGoalCount ≤ 5 then 80
      else 50
    let totalEstimatedSteps := subGoals.foldl (fun sum sg => sum + effSteps sg) 0
    if totalEstimatedSteps > 0 then
      (totalBudget, allocate totalBudget totalEstimatedSteps subGoals 0)
    else
      (totalBudget, subGoals)

/-! Measures used to state the (amended) claim C2. -/

/-- Sum of the raw (pre-adjustment) shares of every sub-goal but the last. -/
def rawsSum (B T : Nat) : List SubGoal → Nat
  | [] => 0
  | [_] => 0
  | sg :: sg' :: rest => rawShare B T sg + rawsSum B T (sg' :: rest)

/-- How many sub-goals other than the last have a zero raw share (these are
the ones raised to `1` after the remainder was already computed). -/
def zeroShareCount (B T : Nat) : List SubGoal → Nat
  | [] => 0
  | [_] => 0
  | sg :: sg' :: rest =>
      (if rawShare B T sg = 0 then 1 else 0) + zeroShareCount B T (sg' :: rest)

/-- Sum of the effective steps of every sub-goal but the last. -/
def nonLastEff : List SubGoal → Nat
  | [] => 0
  | [_] => 0
  | sg :: sg' :: rest => effSteps sg + nonLastEff (sg' :: rest)

/-- Sum of the adjusted (floored-at-1) shares of every sub-goal but the
last. -/
def bumpedSum (B T : Nat) : List SubGoal → Nat
  | [] => 0
  | [_] => 0
  | sg :: sg' :: rest =>
      (let r := rawShare B T sg; if r < 1 then 1 else r) + bumpedSum B T (sg' :: rest)

/-- The total of the effective step estimates (`totalEstimatedSteps`). -/
def effSum (l : List SubGoal) : Nat := (l.map effSteps).sum

end TaskPlanner

/-! ## Shared action data

The LLM proposes `{thought, action, args}`; actions produce ad-hoc result
objects.  `Args.json` is the value of `JSON.stringify(args || {})` (the
serialized form the source uses for history keys); the `url`/`ref` fields
are the ones the source reads directly. -/

/-- Parsed action arguments. -/
structure Args where
  json : String := "\x7b\x7d"
  url : Option String := none
  ref : Option String := none
  deriving DecidableEq, Repr, Inhabited

/-- An action-execution result object (`{success, error, navigate,
videoOpened, ...}`).  `jsonDump` is its `JSON.stringify` serialization as
reported by the environment, used when the observation falls through to the
default JSON dump. -/
structure ActionResult where
  success : Option Bool := none
  error : Option String := none
  alternative : Option String := none
  validationFailed : Bool := false
  tree : Option String := none
  refs : List (String × String) := []
  elementCount : Nat := 0
  videoOpened : Bool := false
  followClicked : Bool := false
  navigate : Option String := none
  jsonDump : String := "\x7b\x7d"
  deriving DecidableEq, Repr, Inhabited

/-- In-place update of one array slot (JS `arr[i] = f(arr[i])`); out-of-range
indices leave the array unchanged. -/
def listModify {α : Type} : List α → Nat → (α → α) → List α
  | [], _, _ => []
  | x :: xs, 0, f => f x :: xs
  | x :: xs, i + 1, f => x :: listModify xs i f

/-- JS `Map.set` / object-property write on an insertion-ordered
association list. -/
def assocSet : List (String × Nat) → String → Nat → List (String × Nat)
  | [], k, v => [(k, v)]
  | (k', v') :: rest, k, v =>
      if k' = k then (k, v) :: rest else (k', v') :: assocSet rest k v

/-- JS `map.get(k)` / `obj[k]` returning `undefined` when absent. -/
def assocGet (m : List (String × Nat)) (k : String) : Option Nat :=
  (m.find? (fun p => p.1 = k)).map (·.2)

/-! ## ProgressTracker (task-status module) -/

/-- The `ProgressTracker` instance state. -/
structure ProgressTracker where
  subGoals : List SubGoal
  currentSubGoalIndex : Nat
  subGoalStepCounts : List Nat
  stuckThreshold : Nat
  deriving DecidableEq, Repr, Inhabited

namespace ProgressTracker

/-- `new ProgressTracker(subGoals)`. -/
def init (subGoals : List SubGoal) : ProgressTracker :=
  { subGoals := subGoals
    currentSubGoalIndex := 0
    subGoalStepCounts := List.replicate subGoals.length 0
    stuckThreshold := 8 }

/-- `getCurrentSubGoal()`: `null` at or past the terminal index. -/
def getCurrentSubGoal (t : ProgressTracker) : Option SubGoal :=
  if h : t.currentSubGoalIndex ≥ t.subGoals.length then none
  else some (t.subGoals.get ⟨t.currentSubGoalIndex, by omega⟩)

/-- `recordStep()`: increments the current slot; logged no-op at the
terminal index. -/
def recordStep (t : ProgressTracker) : ProgressTracker :=
  if t.currentSubGoalIndex ≥ t.subGoals.length then t
  else
    { t with
      subGoalStepCounts := listModify t.subGoalStepCounts t.currentSubGoalIndex (· + 1) }

/-- `isStuck()`: the current slot's step count exceeds the threshold (a JS
out-of-range read is `undefined`, and `undefined > 8` is false, which
`getD 0` reproduces). -/
def isStuck (t : ProgressTracker) : Bool :=
  t.subGoalStepCounts.getD t.currentSubGoalIndex 0 > t.stuckThreshold

/-- `completeCurrentSubGoal(result)`: marks the current sub-goal completed,
stamps `completedAt`, stores the result and advances the cursor; with no
current sub-goal it only logs and returns. -/
def completeCurrentSubGoal (t : ProgressTracker) (result : String) (now : Nat) :
    ProgressTracker :=
  match getCurrentSubGoal t with
  | none => t
  | some _ =>
      { t with
        subGoals := listModify t.subGoals t.currentSubGoalIndex
          (fun sg => { sg with completed := true, completedAt := some now,
                               result := some result })
        currentSubGoalIndex := t.currentSubGoalIndex + 1 }

/-- `skipCurrentSubGoal(reason)`: marks the current sub-goal skipped, stores
the reason and advances the cursor; with no current sub-goal it only logs
and returns. -/
def skipCurrentSubGoal (t : ProgressTracker) (reason : String) : ProgressTracker :=
  match getCurrentSubGoal t with
  | none => t
  | some _ =>
      { t with
        subGoals := listModify t.subGoals t.currentSubGoalIndex
          (fun sg => { sg with skipped := true, skipReason := some reason })
        currentSubGoalIndex := t.currentSubGoalIndex + 1 }

/-- `isComplete()`: the cursor is at or past the length. -/
def isComplete (t : ProgressTracker) : Bool :=
  t.currentSubGoalIndex ≥ t.subGoals.length

/-- `getSummary()` (totals for the final report). -/
structure Summary where
  total : Nat
  completed : Nat
  skipped : Nat
  subGoals : List SubGoal
  deriving DecidableEq, Repr, Inhabited

/-- `getSummary()`. -/
def getSummary (t : ProgressTracker) : Summary :=
  { total := t.subGoals.length
    completed := (t.subGoals.filter (fun sg => sg.completed)).length
    skipped := (t.subGoals.filter (fun sg => sg.skipped)).length
    subGoals := t.subGoals }

/-- One call of the claim-C3 interface: a `completeCurrentSubGoal` or
`skipCurrentSubGoal` invocation with its arguments. -/
inductive TrackerOp where
  | complete (result : String) (now : Nat)
  | skip (reason : String)
  deriving DecidableEq, Repr

/-- Dispatch one `TrackerOp`. -/
def applyOp (t : ProgressTracker) : TrackerOp → ProgressTracker
  | .complete r n => completeCurrentSubGoal t r n
  | .skip r => skipCurrentSubGoal t r

/-- Run a whole call sequence. -/
def applyOps (t : ProgressTracker) (ops : List TrackerOp) : ProgressTracker :=
  ops.foldl applyOp t

end ProgressTracker

/-! ## ExecutionOptimizer (task-status module) -/

/-- One entry of the optimizer's bounded action history. -/
structure OptActionRecord where
  action : String
  args : String
  result : ActionResult
  timestamp : Nat
  deriving DecidableEq, Repr, Inhabited

/-- The `ExecutionOptimizer` instance state (constructor defaults). -/
structure ExecutionOptimizer where
  snapshotCache : Option String := none
  cacheSubGoalId : Option Nat := none
  consecutiveSnapshots : Nat := 0
  getUrlCountPerSubGoal : Nat := 0
  currentSubGoalId : Option Nat := none
  failureRetries : List (String × Nat) := []
  actionHistory : List OptActionRecord := []
  deriving DecidableEq, Repr, Inhabited

/-- Result of `validateAction`. -/
structure ValidationResult where
  valid : Bool
  reason : String
  alternative : String
  deriving DecidableEq, Repr, Inhabited

namespace ExecutionOptimizer

/-- `validateAction(action, args, currentSubGoal)`.  The method reads the
counters and performs no assignment, so its translated state component is
the unchanged receiver. -/
def validateAction (opt : ExecutionOptimizer) (action : String) (_args : Args)
    (_currentSubGoal : Option SubGoal) : ExecutionOptimizer × ValidationResult :=
  if action = "snapshot" ∧ opt.consecutiveSnapshots ≥ 2 then
    (opt,
      { valid := false
        reason := "Too many consecutive snapshot() calls without taking action"
        alternative := "Take an action based on the previous snapshot (click, fill, navigate, etc.) or call finished() if task is complete" })
  else if action = "getUrl" ∧ opt.getUrlCountPerSubGoal ≥ 1 then
    (opt,
      { valid := false
        reason := "getUrl() already called once in this sub-goal"
        alternative := "Use cached URL information or proceed with other actions" })
  else
    (opt, { valid := true, reason := "", alternative := "" })

/-- `recordAction(action, args, result)`: updates the consecutive-snapshot
and getUrl counters and appends to the 20-entry bounded history. -/
def recordAction (opt : ExecutionOptimizer) (action : String) (argsJson : String)
    (result : ActionResult) (now : Nat) : ExecutionOptimizer :=
  let consecutiveSnapshots :=
    if action = "snapshot" then opt.consecutiveSnapshots + 1 else 0
  let getUrlCountPerSubGoal :=
    if action = "getUrl" then opt.getUrlCountPerSubGoal + 1
    else opt.getUrlCountPerSubGoal
  let actionHistory :=
    opt.actionHistory ++ [{ action := action, args := argsJson, result := result,
                            timestamp := now }]
  let actionHistory :=
    if actionHistory.length > 20 then actionHistory.drop 1 else actionHistory
  { opt with
    consecutiveSnapshots := consecutiveSnapshots
    getUrlCountPerSubGoal := getUrlCountPerSubGoal
    actionHistory := actionHistory }

/-- `getCachedSnapshot(subGoalId)`. -/
def getCachedSnapshot (opt : ExecutionOptimizer) (subGoalId : Nat) : Option String :=
  if opt.cacheSubGoalId = some subGoalId ∧ opt.snapshotCache.isSome then
    opt.snapshotCache
  else none

/-- `cacheSnapshot(subGoalId, snapshot)`. -/
def cacheSnapshot (opt : ExecutionOptimizer) (subGoalId : Nat) (snapshot : String) :
    ExecutionOptimizer :=
  { opt with snapshotCache := some snapshot, cacheSubGoalId := some subGoalId }

/-- `clearCache()`. -/
def clearCache (opt : ExecutionOptimizer) : ExecutionOptimizer :=
  { opt with snapshotCache := none, cacheSubGoalId := none }

/-- `canRetry(action, args)`: bumps the per-key counter and allows at most
2 attempts. -/
def canRetry (opt : ExecutionOptimizer) (action : String) (argsJson : String) :
    ExecutionOptimizer × Bool :=
  let key := action ++ ":" ++ argsJson
  let retries := (assocGet opt.failureRetries key).getD 0
  ({ opt with failureRetries := assocSet opt.failureRetries key (retries + 1) },
   retries < 2)

/-- `resetForSubGoal(subGoalId)`: zeroes the per-sub-goal counters and clears
the snapshot cache; deliberately leaves `failureRetries` alone. -/
def resetForSubGoal (opt : ExecutionOptimizer) (subGoalId : Nat) :
    ExecutionOptimizer :=
  clearCache
    { opt with
      currentSubGoalId := some subGoalId
      getUrlCountPerSubGoal := 0
      consecutiveSnapshots := 0 }

end ExecutionOptimizer

/-! ## BrowserAgent instance state (agent.js)

Fields created lazily in the source (`navigationHistory`,
`lastObservations`, `loopDetectionState`, `loopDetectionCount`) are
modelled with their lazy-initialization values as defaults: an `undefined`
rolling list behaves exactly like `[]` at every use site, an absent counter
object like all-zero counters (where a use site distinguishes `undefined`
from an empty array, the model encodes the test that is equivalent on the
states the source can reach; see `isProductiveIteration`). -/

/-- Per-pattern `{count, detected}` cell of `loopDetectionState`. -/
structure LoopPatternState where
  count : Nat := 0
  detected : Bool := false
  deriving DecidableEq, Repr, Inhabited

/-- The four-pattern `loopDetectionState` object. -/
structure LoopDetectionState where
  sameActionDifferentArgs : LoopPatternState := {}
  pageNavigation : LoopPatternState := {}
  consecutiveSnapshots : LoopPatternState := {}
  snapshotWaitPattern : LoopPatternState := {}
  deriving DecidableEq, Repr, Inhabited

/-- The result object of `detectLoop` (absent JS fields default to the
neutral value: empty string, `0`, `false`, `[]`).  The JS `confidence`
number is represented exactly as its value scaled by 100 (every literal the
source assigns — 0.5, 0.6, 0.7, 0.8, 0.85, 0.9, 0.95, 1.0 — is an exact
hundredth, and the only comparison, `confidence < 0.7`, is `< 70` in this
scale). -/
structure LoopResult where
  detected : Bool := false
  reason : String := ""
  pattern : String := ""
  confidence : Nat := 0
  productive : Bool := false
  canFinish : Bool := false
  actionName : String := ""
  count : Nat := 0
  urls : List String := []
  deriving DecidableEq, Repr, Inhabited

/-- One `completedActions`/`failedActions` entry of `taskState`. -/
structure TaskAction where
  action : String
  argsJson : String
  error : Option String := none
  timestamp : Nat
  deriving DecidableEq, Repr, Inhabited

/-- One `pageHistory` entry of `taskState`. -/
structure PageVisit where
  url : Option String
  timestamp : Nat
  deriving DecidableEq, Repr, Inhabited

/-- The `taskState` object, as re-created at `run()` entry (`stepBudget` is
set later, during planning). -/
structure TaskState where
  subGoals : List SubGoal := []
  currentSubGoal : Nat := 0
  completedActions : List TaskAction := []
  failedActions : List TaskAction := []
  pageHistory : List PageVisit := []
  stepBudget : Option Nat := none
  deriving DecidableEq, Repr, Inhabited

/-- One entry of `this.history` (`{step, thought, action, args}`). -/
structure HistoryEntry where
  step : Nat
  thought : String
  action : String
  args : Args
  deriving DecidableEq, Repr, Inhabited

/-- The mutable `BrowserAgent` instance state (constructor defaults of
lines 305–341, with the lazily-created fields at their creation values). -/
structure AgentState where
  maxSteps : Nat := 50
  stopped : Bool := false
  stepCount : Nat := 0
  history : List HistoryEntry := []
  lastActions : List String := []
  lastUrls : List String := []
  currentRefs : List (String × String) := []
  currentTask : String := ""
  taskState : TaskState := {}
  navigationHistory : List String := []
  lastObservations : List String := []
  loopDetectionState : LoopDetectionState := {}
  loopDetectionCount : List (String × Nat) := []
  executionOptimizer : ExecutionOptimizer := {}
  progressTracker : Option ProgressTracker := none
  deriving DecidableEq, Repr, Inhabited

/-- The state of `new BrowserAgent(config)` for a given configured
`maxSteps`. -/
def freshAgent (maxSteps : Nat) : AgentState :=
  { maxSteps := maxSteps }

/-- Lines 1945–1958 of `run()`: the per-run fields reset at entry.  The
other fields (navigation history, last observations, loop-detection
counters, escalation counts, the execution optimizer and the progress
tracker) are not touched here. -/
def runEntryReset (task : String) (s : AgentState) : AgentState :=
  { s with
    stopped := false
    stepCount := 0
    history := []
    lastActions := []
    lastUrls := []
    currentRefs := []
    currentTask := task
    taskState := {} }

/-! ## Loop detection (`detectLoop`, `isProductiveIteration`,
`getAlternatives`) -/

/-- JS `s.startsWith(p)`. -/
def strStartsWith (s p : String) : Bool :=
  matchesAt s.data p.data

/-- JS `key.split(':')` on character lists. -/
def splitCols : List Char → List (List Char)
  | [] => [[]]
  | c :: cs =>
      let rest := splitCols cs
      if c = ':' then [] :: rest
      else
        match rest with
        | [] => [[c]]
        | r :: rs => (c :: r) :: rs

/-- The colon-separated parts of an action key. -/
def keyParts (a : String) : List String :=
  (splitCols a.data).map (fun l => ⟨l⟩)

/-- JS `a.split(':')[0]`: the action name of an action key. -/
def keyName (a : String) : String :=
  (keyParts a).headD ""

/-- JS `JSON.parse(a.split(':')[1]).ref || .selector` of
`isProductiveIteration`: `split(':')[1]` truncates the argument
serialization at its *first* colon, so `JSON.parse` throws for every
non-empty object (caught, yielding `null`) and parses `"\x7b\x7d"` to an
object with no `ref`/`selector` field (also `null`): the extracted ref is
`none` for every key built by `detectLoop`. -/
def refFromActionKey (a : String) : Option String :=
  match (keyParts a).get? 1 with
  | none => none
  | some _fragment => none

/-- Push onto a rolling window: `arr.push(x); if (arr.length > n)
arr.shift()`. -/
def capPush {α : Type} (n : Nat) (l : List α) (x : α) : List α :=
  let l' := l ++ [x]
  if l'.length > n then l'.drop 1 else l'

/-- JS `arr.slice(-n)`. -/
def lastN {α : Type} (n : Nat) (l : List α) : List α :=
  l.drop (l.length - n)

/-- Occurrence counts as a JS object keyed in first-insertion order. -/
def bumpCount : List (String × Nat) → String → List (String × Nat)
  | [], k => [(k, 1)]
  | (k', n) :: rest, k =>
      if k' = k then (k', n + 1) :: rest else (k', n) :: bumpCount rest k

/-- Build the `actionCounts`-style objects of `detectLoop`. -/
def countOccurrences (keys : List String) : List (String × Nat) :=
  keys.foldl bumpCount []

/-- The progress-keyword list of `isProductiveIteration`. -/
def progressIndicators : List String :=
  ["success", "completed", "extracted", "found", "loaded", "opened", "clicked",
   "filled", "navigated"]

/-- `isProductiveIteration(action, args, observation, recentActions)`.
Reads the rolling observation window, the navigation history (pushed by
`detectLoop` before this call; `undefined` is modelled by `[]`, hence the
nonempty guard on heuristic 3) and the progress tracker. -/
def isProductiveIteration (s : AgentState) (action : String) (_args : Args)
    (observation : String) (recentActions : List String) : Bool :=
  -- 1. the last two raw observations differ
  (if s.lastObservations.length ≥ 2 then
    (let lastTwo := lastN 2 s.lastObservations
     decide (lastTwo.getD 0 "" ≠ lastTwo.getD 1 ""))
   else false) ||
  -- 2. repeated getText/getMarkdown on distinct refs
  (if action = "getText" ∨ action = "getMarkdown" then
    (let recentGetTexts := recentActions.filter
        (fun a => strStartsWith a "getText:" || strStartsWith a "getMarkdown:")
     if recentGetTexts.length ≥ 2 then
       decide ((((recentGetTexts.map refFromActionKey).filterMap id).dedup).length ≥ 2)
     else false)
   else false) ||
  -- 3. repeated navigation to all-distinct URLs
  (if action = "navigate" ∧ s.navigationHistory ≠ [] then
    (let recent3 := lastN 3 s.navigationHistory
     decide (recent3.dedup.length = recent3.length))
   else false) ||
  -- 4. clicking distinct refs
  (if action = "click" then
    (let recentClicks := recentActions.filter (fun a => strStartsWith a "click:")
     if recentClicks.length ≥ 2 then
       decide ((((recentClicks.map refFromActionKey).filterMap id).dedup).length ≥ 2)
     else false)
   else false) ||
  -- 5. a progress keyword in the observation
  (if observation ≠ "" then
    progressIndicators.any (fun ind => strIncludes (jsToLower observation) ind)
   else false) ||
  -- 6. at least one sub-goal completed so far
  (match s.progressTracker with
   | some t => decide ((t.subGoals.filter (fun sg => sg.completed)).length > 0)
   | none => false)

/-- The consecutive-snapshot streak scanned from the end of the recent
window: a `snapshot` extends it, a `wait` is tolerated, anything else ends
it (input is the reversed name list). -/
def snapStreakFromEnd : List String → Nat
  | [] => 0
  | n :: rest =>
      if n = "snapshot" then 1 + snapStreakFromEnd rest
      else if n = "wait" then snapStreakFromEnd rest
      else 0

/-- Occurrences of the literal window `[snapshot, wait, snapshot]` in the
last-six name list (out-of-range reads are `undefined` and never match). -/
def snapshotWaitMatches (l : List String) : Nat :=
  ((List.range l.length).filter (fun i =>
    l.getD i "" = "snapshot" ∧ l.getD (i + 1) "" = "wait" ∧
      l.getD (i + 2) "" = "snapshot")).length

/-- Patterns 2–4, the legacy fallbacks, the video special case and the
default of `detectLoop`, entered when pattern 1 misses.  `recentActions` and
`recentNames` are the last-10 window and its action names, `productive` the
already-computed productivity flag. -/
def detectLoopRest (s : AgentState) (observation : String)
    (recentActions recentNames : List String) (productive : Bool) :
    AgentState × LoopResult :=
  let actionOnlyCounts := countOccurrences recentNames
  -- Pattern 2: the last four navigations alternate between exactly two URLs
  if s.navigationHistory.length ≥ 4 ∧
      (lastN 4 s.navigationHistory).dedup.length = 2 ∧
      (lastN 4 s.navigationHistory).getD 2 "" = (lastN 4 s.navigationHistory).getD 0 "" ∧
      (lastN 4 s.navigationHistory).getD 3 "" = (lastN 4 s.navigationHistory).getD 1 "" then
    let recent4 := lastN 4 s.navigationHistory
    ({ s with loopDetectionState :=
        { s.loopDetectionState with pageNavigation :=
          { count := s.loopDetectionState.pageNavigation.count + 1,
            detected := true } } },
     { detected := true, reason := "page_navigation_loop",
       pattern := "pageNavigation", confidence := 95,
       urls := [recent4.getD 0 "", recent4.getD 1 ""], productive := false })
  else
  -- Pattern 3: ≥ 3 consecutive snapshots (tolerating interleaved waits)
  if snapStreakFromEnd recentNames.reverse ≥ 3 then
    ({ s with loopDetectionState :=
        { s.loopDetectionState with consecutiveSnapshots :=
          { count := s.loopDetectionState.consecutiveSnapshots.count + 1,
            detected := true } } },
     { detected := true, reason := "consecutive_snapshots",
       pattern := "consecutiveSnapshots",
       confidence := if productive then 60 else 85,
       count := snapStreakFromEnd recentNames.reverse, productive := productive })
  else
  -- Pattern 4: ≥ 2 occurrences of [snapshot, wait, snapshot] in the last 6
  if snapshotWaitMatches (lastN 6 recentNames) ≥ 2 then
    ({ s with loopDetectionState :=
        { s.loopDetectionState with snapshotWaitPattern :=
          { count := s.loopDetectionState.snapshotWaitPattern.count + 1,
            detected := true } } },
     { detected := true, reason := "snapshot_wait_pattern",
       pattern := "snapshotWaitPattern",
       confidence := if productive then 50 else 80,
       count := snapshotWaitMatches (lastN 6 recentNames), productive := productive })
  else
  -- Legacy: an exact action:args key repeated ≥ 3 times
  if (countOccurrences recentActions).any (fun p => p.2 ≥ 3) then
    (s, { detected := true, reason := "same_action_repeated", pattern := "legacy",
          confidence := 100, productive := false })
  else if (assocGet actionOnlyCounts "getUrl").getD 0 ≥ 2 then
    (s, { detected := true, reason := "too_many_getUrl", pattern := "legacy",
          confidence := 90, productive := false })
  else if (assocGet actionOnlyCounts "snapshot").getD 0 ≥ 5 then
    (s, { detected := true, reason := "too_many_snapshots", pattern := "legacy",
          confidence := 85, productive := productive })
  else if (assocGet actionOnlyCounts "wait").getD 0 ≥ 4 then
    (s, { detected := true, reason := "too_many_waits", pattern := "legacy",
          confidence := 70, productive := productive })
  -- Special case: a playing video is a successful terminal state
  else if strIncludes observation "videoOpened" || strIncludes observation "Video opened" then
    (s, { detected := false, canFinish := true, reason := "video_playing" })
  else
    (s, { detected := false })

/-- `detectLoop(action, args, observation)` (lines 455–687): pushes the
action key and any navigated URL onto the rolling windows, then checks the
four priority patterns, the legacy fallbacks and the video special case in
source order, returning at the first hit.  The try/catch wrapper of the
source cannot fire in this total embedding; its safe default is the final
`{detected: false}`. -/
def detectLoop (s : AgentState) (action : String) (args : Args)
    (observation : String) : AgentState × LoopResult :=
  let actionKey := action ++ ":" ++ args.json
  let lastActions := capPush 15 s.lastActions actionKey
  let navigationHistory :=
    if action = "navigate" then
      match args.url with
      | some u => if u ≠ "" then capPush 10 s.navigationHistory u else s.navigationHistory
      | none => s.navigationHistory
    else s.navigationHistory
  let s := { s with lastActions := lastActions, navigationHistory := navigationHistory }
  let recentActions := lastN 10 lastActions
  let productive := isProductiveIteration s action args observation recentActions
  let recentNames := recentActions.map keyName
  let actionOnlyCounts := countOccurrences recentNames
  -- Pattern 1: same action name > 3 times with ≥ 2 distinct argument sets
  match actionOnlyCounts.find? (fun p =>
      p.2 > 3 ∧ p.1 ≠ "wait" ∧
        ((recentActions.filter (fun a => keyName a = p.1)).dedup).length > 1) with
  | some (actionName, count) =>
      ({ s with loopDetectionState :=
          { s.loopDetectionState with sameActionDifferentArgs :=
            { count := s.loopDetectionState.sameActionDifferentArgs.count + 1,
              detected := true } } },
       { detected := true, reason := "same_action_different_args",
         pattern := "sameActionDifferentArgs",
         confidence := if productive then 50 else 90,
         actionName := actionName, count := count, productive := productive })
  | none => detectLoopRest s observation recentActions recentNames productive

/-- `getAlternatives(loopResult, currentSubGoal)`: the pattern-specific
suggestion list (action, suggestion), plus the always-present finish
suggestion. -/
def getAlternatives (loopResult : LoopResult) (currentSubGoal : Option SubGoal) :
    List (String × String) :=
  if loopResult.detected = false then []
  else
    let base : List (String × String) :=
      if loopResult.pattern = "sameActionDifferentArgs" then
        [("Try a completely different action type",
          "You've tried " ++ loopResult.actionName ++
            " multiple times with different arguments. Consider using a different approach entirely.")] ++
        (if loopResult.actionName = "click" then
          [("Use getText or getMarkdown",
            "Instead of clicking, try extracting content directly with getText() or getMarkdown().")]
         else if loopResult.actionName = "getText" then
          [("Take a snapshot to reassess",
            "Take a fresh snapshot() to see the current page state and identify better elements.")]
         else if loopResult.actionName = "fill" then
          [("Look for alternative input methods",
            "Try finding a different search box or input field, or use the search() action if available.")]
         else []) ++
        (match currentSubGoal with
         | some _ =>
            [("Skip to next sub-goal",
              "Current sub-goal may not be achievable. Consider moving to the next sub-goal.")]
         | none => [])
      else if loopResult.pattern = "pageNavigation" then
        [("Stop navigating back and forth",
          "You're navigating between " ++ (loopResult.urls.getD 0 "") ++ " and " ++
            (loopResult.urls.getD 1 "") ++
            " repeatedly. Stay on one page and complete the task there."),
         ("Extract content from current page",
          "Use getMarkdown() or getText() to extract what you need from the current page instead of navigating."),
         ("Call finished() if task is complete",
          "If you already have the information needed, call finished() with the results.")]
      else if loopResult.pattern = "consecutiveSnapshots" then
        [("Take action instead of observing",
          "You've taken " ++ toString loopResult.count ++
            " snapshots without acting. Use the information from your last snapshot to take action."),
         ("Use getText() for specific content",
          "If you need specific content, use getText(ref) instead of taking more snapshots."),
         ("Use getMarkdown() for full content",
          "If you need full page content, use getMarkdown() instead of repeated snapshots.")]
      else if loopResult.pattern = "snapshotWaitPattern" then
        [("Stop waiting for changes",
          "The page is not changing. Take action based on what you see instead of waiting."),
         ("Interact with the page",
          "Click, fill, or navigate to make progress instead of passively observing."),
         ("Extract content and finish",
          "If the page has the information you need, extract it with getText() or getMarkdown() and call finished().")]
      else if loopResult.pattern = "legacy" then
        (if loopResult.reason = "too_many_getUrl" then
          [("Stop checking URL",
            "You already know the current URL. Focus on taking action instead of checking it again.")]
         else if loopResult.reason = "too_many_snapshots" then
          [("Act on your observations",
            "You have enough information from previous snapshots. Take action now.")]
         else if loopResult.reason = "too_many_waits" then
          [("Stop waiting",
            "Waiting is not helping. Take action or try a different approach.")]
         else
          [("Try a different approach",
            "You are repeating the same action. Try something completely different.")])
      else []
    base ++
      [("Call finished() if done",
        "If you have gathered the information needed to complete the task, call finished() with your results.")]

/-- Render the alternatives as the source formats them into the
observation. -/
def alternativesText (alts : List (String × String)) : String :=
  String.join ((alts.enum).map (fun p =>
    toString (p.1 + 1) ++ ". " ++ p.2.1 ++ ": " ++ p.2.2 ++ "\n"))

/-- `toFixed(0)` of `confidence * 100`: in the percent scale this is plain
decimal rendering. -/
def confPercentText (c : Nat) : String :=
  toString c

/-- The loop-escalation block of `run()` (lines 2408–2461): gate productive
low-confidence hits, bump the per-key escalation counter, inject advisory
text on the first detection, an imperative warning from the second, and
force-skip the current sub-goal from the *third* detection of the same key
onward.  Returns the updated agent state and observation text.
`currentSubGoal` is the iteration's local variable (fetched before the
completion/stuck handling). -/
def applyLoopEscalation (s : AgentState) (currentSubGoal : Option SubGoal)
    (loopRes : LoopResult) (lastObservation : String) : AgentState × String :=
  if loopRes.detected = false then (s, lastObservation)
  else if loopRes.productive ∧ loopRes.confidence < 70 then
    (s, lastObservation)
  else
    let alts := getAlternatives loopRes currentSubGoal
    let loopKey := if loopRes.pattern ≠ "" then loopRes.pattern else loopRes.reason
    let cnt := (assocGet s.loopDetectionCount loopKey).getD 0 + 1
    let s := { s with loopDetectionCount := assocSet s.loopDetectionCount loopKey cnt }
    if cnt ≥ 2 then
      let obs := lastObservation ++ "\n\n🛑 LOOP DETECTED (" ++ loopKey ++
        ") - SECOND TIME! You MUST take one of these actions NOW:\n"
      let trackerActive :=
        match s.progressTracker with
        | some tracker => currentSubGoal.isSome && !tracker.isComplete
        | none => false
      if trackerActive then
        let obs := obs ++ "1. Skip to next sub-goal by acknowledging this is not achievable\n" ++
          "2. Call finished() if you have enough information to complete the task\n"
        if cnt ≥ 3 then
          match s.progressTracker with
          | some tracker =>
              let tracker := tracker.skipCurrentSubGoal ("Loop detected 3 times: " ++ loopKey)
              let obs := obs ++ "\n⚠️ AUTO-SKIPPED to next sub-goal due to repeated loop.\n"
              let s := { s with progressTracker := some tracker }
              if tracker.isComplete = false then
                match tracker.getCurrentSubGoal with
                | some sg => (s, obs ++ "\nNow working on: " ++ sg.description ++ "\n")
                | none => (s, obs)
              else
                (s, obs ++ "\nAll sub-goals processed. Call finished() with your results.\n")
          | none => (s, obs)
        else
          (s, obs)
      else
        (s, obs ++ "1. Call finished() with whatever results you have gathered\n" ++
          "2. Try ONE completely different approach\n")
    else
      let productiveNote := if loopRes.productive then " (possibly productive)" else ""
      (s, lastObservation ++ "\n\n⚠️ LOOP DETECTED (" ++ loopKey ++ productiveNote ++
        ", confidence: " ++ confPercentText loopRes.confidence ++ "%)\n" ++
        "You are stuck in a repetitive pattern. Try one of these alternatives:\n\n" ++
        alternativesText alts)

/-! ## executeAction (lines 1304–1772)

The per-action environment work (content-script messages, navigation
waits, document generation, askUser) is external: the oracle supplies the
`ActionResult` those calls produced.  What remains in the model is the
control flow the agent owns: the stopped early-return, the
ExecutionOptimizer validation gate with its early validation-failure
return, the `finished` early return, the snapshot-refs bookkeeping,
`recordAction`, and `updateTaskState`. -/

/-- The current sub-goal as the agent fetches it
(`this.progressTracker ? this.progressTracker.getCurrentSubGoal() : null`). -/
def currentSubGoalOf (s : AgentState) : Option SubGoal :=
  match s.progressTracker with
  | some t => t.getCurrentSubGoal
  | none => none

/-- The `result` field of `executeAction`'s `{done, result}` return: a plain
string on the stopped/`finished` early returns, an action-result object
otherwise. -/
inductive ExecVal where
  | str (s : String)
  | obj (r : ActionResult)
  deriving DecidableEq, Repr, Inhabited

/-- `executeAction`'s return value `{done, result}`. -/
structure ExecReturn where
  done : Bool
  result : ExecVal
  deriving DecidableEq, Repr, Inhabited

/-- JS `ev?.success` (field sniffing on a possibly-string value). -/
def execSuccess : ExecVal → Option Bool
  | .str _ => none
  | .obj r => r.success

/-- `executeAction(action, args)`.  `envResult` is the result object the
environment returned for this action; `now` is `Date.now()`.  A cooperative
stop arriving *during* an action (the `wait` polling loop, navigation
settle) is modelled by the loop-level stop bit checked right after this
call, which the source also checks (line 2185) before using the result.
The `finished` payload — `JSON.stringify(args.result || args.content ||
args)` — is abstracted to the args serialization. -/
def executeAction (s : AgentState) (envResult : ActionResult) (now : Nat)
    (action : String) (args : Args) : AgentState × ExecReturn :=
  if s.stopped then
    (s, { done := true, result := .str "Stopped by user" })
  else
    let validation :=
      (s.executionOptimizer.validateAction action args (currentSubGoalOf s)).2
    if validation.valid = false then
      let blocked : ActionResult :=
        { success := some false
          error := some validation.reason
          alternative := some validation.alternative
          validationFailed := true }
      (s, { done := false, result := .obj blocked })
    else if action = "finished" then
      (s, { done := true, result := .str args.json })
    else
      let result := envResult
      let s :=
        if action = "snapshot" ∧ result.tree.isSome then
          { s with currentRefs := result.refs }
        else s
      let s :=
        { s with executionOptimizer :=
            s.executionOptimizer.recordAction action args.json result now }
      -- updateTaskState (lines 904–926)
      let ts := s.taskState
      let ts :=
        if result.success = some true then
          { ts with completedActions := ts.completedActions ++
              [{ action := action, argsJson := args.json, timestamp := now }] }
        else if result.success = some false then
          { ts with failedActions := ts.failedActions ++
              [{ action := action, argsJson := args.json, error := result.error,
                 timestamp := now }] }
        else ts
      let ts :=
        if action = "navigate" ∨ (action = "click" ∧ result.navigate.isSome) then
          { ts with pageHistory := ts.pageHistory ++
              [{ url := if result.navigate.isSome then result.navigate else args.url,
                 timestamp := now }] }
        else ts
      ({ s with taskState := ts }, { done := false, result := .obj result })

/-! ## The run() step loop (lines 1944–2521) -/

/-- One parsed LLM decision (`parseResponse` never throws; its fallback is
an unlabeled thought with `action: "unknown"`, which is this structure's
default). -/
structure Parsed where
  thought : String := ""
  action : String := "unknown"
  args : Args := {}
  deriving DecidableEq, Repr, Inhabited

/-- The external inputs one loop iteration consumes: the cooperative-stop
bits observed at the three in-loop checkpoints, the LLM call's outcome
(`.error` = transport/API failure, already parsed on success), the
environment's action result, and the clock. -/
structure StepOracle where
  stopBeforeStep : Bool := false
  llm : Except String Parsed := .ok {}
  stopAfterLLM : Bool := false
  env : ActionResult := {}
  stopAfterExec : Bool := false
  now : Nat := 0
  deriving Inhabited

/-- The plan produced by `TaskPlanner.analyzeTask` (category and advisory
heuristic omitted: the loop reads only `subGoals` and `stepBudget`).  `run`
takes it as an input: `none` stands for a planner exception (the catch
path). -/
structure Plan where
  subGoals : List SubGoal := []
  stepBudget : Nat := 30
  deriving DecidableEq, Repr, Inhabited

/-- The single result object a run returns. -/
structure RunResult where
  success : Bool
  result : Option String := none
  error : Option String := none
  stopped : Bool := false
  summary : Option ProgressTracker.Summary := none
  history : List HistoryEntry
  deriving DecidableEq, Repr, Inhabited

/-- The loop locals carried across iterations alongside the instance
state. -/
structure RunState where
  ag : AgentState
  lastSnapshot : Option String := none
  lastObservation : Option String := none
  deriving DecidableEq, Repr, Inhabited

/-- `{success: false, error: 'Stopped by user', stopped: true, history}`. -/
def stoppedResult (s : AgentState) : RunResult :=
  { success := false, error := some "Stopped by user", stopped := true,
    history := s.history }

/-- `{success: false, error, history}`. -/
def errorResult (msg : String) (s : AgentState) : RunResult :=
  { success := false, error := some msg, history := s.history }

/-- `{success: true, result: 'All sub-goals completed', summary, history}`. -/
def subGoalsCompleteResult (t : ProgressTracker) (s : AgentState) : RunResult :=
  { success := true, result := some "All sub-goals completed",
    summary := some t.getSummary, history := s.history }

/-- `{success: true, result, history}` for a `finished` action. -/
def finishedResult (payload : String) (s : AgentState) : RunResult :=
  { success := true, result := some payload, history := s.history }

/-- `{success: false, error: 'Max steps reached without completion',
history}`. -/
def incompleteResult (s : AgentState) : RunResult :=
  { success := false, error := some "Max steps reached without completion",
    history := s.history }

/-- `validateTaskState()` (lines 1850–1941): every check tests JS-type
well-formedness of the mutable fields (numbers are numbers, arrays are
arrays), repairing and logging if not; the typed state of this embedding
satisfies all of them, and the catch path cannot fire in a total model, so
validation always reports success.  The `false` (abort) outcome is kept in
the loop for fidelity of the exit set. -/
def validateTaskState (_s : AgentState) : Bool := true

/-- JS `x || 'default'` on an optional string. -/
def optOr (o : Option String) (d : String) : String :=
  match o with
  | some s => if s = "" then d else s
  | none => d

/-- A JS template literal of a possibly-undefined value. -/
def jsTemplateOpt (o : Option String) : String :=
  o.getD "undefined"

/-- Lines 2226–2248: derive `lastSnapshot` and the textual observation from
the execution result (field accesses on a non-object value are `undefined`,
i.e. the `.str` branches). -/
def buildObservation (action : String) (ev : ExecVal) : Option String × String :=
  if action = "snapshot" then
    match ev with
    | .obj r =>
        match r.tree with
        | some t =>
            (some t, "Snapshot: " ++ toString r.elementCount ++ " elements found")
        | none => (none, "Snapshot failed: " ++ optOr r.error "unknown error")
    | .str _ => (none, "Snapshot failed: unknown error")
  else
    (none,
     match ev with
     | .obj r =>
         if r.validationFailed then
           "Action blocked: " ++ jsTemplateOpt r.error ++ "\nSuggestion: " ++
             jsTemplateOpt r.alternative
         else if r.success = some false then
           "Error: " ++ optOr r.error "Unknown error"
         else if r.videoOpened then "videoOpened: Video is playing!"
         else if r.followClicked then "followClicked: Followed successfully!"
         else r.jsonDump
     | .str msg => "\"" ++ msg ++ "\"")

/-- `isSubGoalComplete(subGoal, action, result, observation)` (lines
418–453): the completion-criteria keyword table. -/
def isSubGoalComplete (subGoal : SubGoal) (action : String) (ev : ExecVal)
    (observation : String) : Bool :=
  if subGoal.completionCriteria = "" then false
  else
    let criteria := jsToLower subGoal.completionCriteria
    let obsLower := jsToLower observation
    if strIncludes criteria "search" && strIncludes criteria "loaded" then
      action = "search" && execSuccess ev = some true
    else if strIncludes criteria "content" && strIncludes criteria "extracted" then
      (action = "getMarkdown" || action = "getText") && execSuccess ev = some true
    else if strIncludes criteria "navigated" || strIncludes criteria "page loaded" then
      action = "navigate" && execSuccess ev = some true
    else if strIncludes criteria "clicked" || strIncludes criteria "button" then
      action = "click" && execSuccess ev = some true
    else if strIncludes obsLower "complete" || strIncludes obsLower "success" then
      true
    else false

/-- Lines 2403–2467: loop detection on the just-executed action, the
`canFinish` hint, the three-tier escalation and the lightweight
repeat-yourself warning, producing the next iteration's state and
observation. -/
def detectPhase (s : AgentState) (currentSubGoal : Option SubGoal)
    (parsed : Parsed) (lastSnapshot : Option String) (lastObservation : String) :
    Except RunResult RunState :=
  let p := detectLoop s parsed.action parsed.args lastObservation
  let s := p.1
  let afterActionLoop := p.2
  let lastObservation :=
    if afterActionLoop.canFinish ∧
        (parsed.action = "click" ∨ parsed.action = "snapshot" ∨
          parsed.action = "getMarkdown") then
      lastObservation ++ "\n✅ Task likely complete! Call finished() now if this meets the goal."
    else lastObservation
  let q := applyLoopEscalation s currentSubGoal afterActionLoop lastObservation
  let s := q.1
  let lastObservation := q.2
  let recentActions := lastN 10 s.lastActions
  let sameActions := recentActions.filter
    (fun a => strStartsWith a (parsed.action ++ ":"))
  let lastObservation :=
    if sameActions.length ≥ 4 ∧ parsed.action ≠ "finished" ∧
        strIncludes lastObservation "Task likely complete" = false ∧
        afterActionLoop.detected = false then
      lastObservation ++ "\n⚠️ You are repeating the same action! Try a different approach or call finished() if done."
    else lastObservation
  .ok { ag := s, lastSnapshot := lastSnapshot, lastObservation := some lastObservation }

/-- Lines 2250–2467: everything after a non-terminal action execution —
observation derivation, the observation window push, sub-goal
record/complete/stuck handling (the stuck path `continue`s past loop
detection), then `detectPhase`.  The completion payload stored into the
sub-goal (`{action, result, observation}` in the source) is summarized by
its observation text. -/
def afterExecution (o : StepOracle) (s : AgentState)
    (currentSubGoal : Option SubGoal) (parsed : Parsed) (ev : ExecVal) :
    Except RunResult RunState :=
  let ob := buildObservation parsed.action ev
  let lastSnapshot := ob.1
  let lastObservation := ob.2
  let s := { s with lastObservations := capPush 5 s.lastObservations lastObservation }
  match s.progressTracker, currentSubGoal with
  | some tracker, some csg =>
      let tracker := tracker.recordStep
      let s := { s with progressTracker := some tracker }
      let completed := isSubGoalComplete csg parsed.action ev lastObservation
      let p :=
        if completed then
          let tracker := tracker.completeCurrentSubGoal lastObservation o.now
          let s := { s with progressTracker := some tracker }
          let s :=
            match tracker.getCurrentSubGoal with
            | some newSub =>
                { s with executionOptimizer :=
                    s.executionOptimizer.resetForSubGoal newSub.id }
            | none => s
          (s, tracker)
        else (s, tracker)
      let s := p.1
      let tracker := p.2
      if completed ∧ tracker.isComplete then
        .error (subGoalsCompleteResult tracker s)
      else if tracker.isStuck then
        let stuckReason := "Stuck on sub-goal \"" ++ csg.description ++ "\" after " ++
          toString (tracker.subGoalStepCounts.getD tracker.currentSubGoalIndex 0) ++
          " steps"
        let tracker := tracker.skipCurrentSubGoal stuckReason
        let s := { s with progressTracker := some tracker }
        let s :=
          match tracker.getCurrentSubGoal with
          | some newSub =>
              { s with executionOptimizer :=
                  s.executionOptimizer.resetForSubGoal newSub.id }
          | none => s
        let lastObservation := lastObservation ++ "\n⚠️ " ++ stuckReason ++
          ". Moving to next sub-goal."
        .ok { ag := s, lastSnapshot := lastSnapshot,
              lastObservation := some lastObservation }
      else
        detectPhase s currentSubGoal parsed lastSnapshot lastObservation
  | _, _ =>
      detectPhase s currentSubGoal parsed lastSnapshot lastObservation

/-- The LLM call, response recording, action execution and the post-action
phase of one iteration (lines 2133–2467), entered after the
auto-finish check. -/
def loopLLM (o : StepOracle) (s : AgentState) (_lastSnapshot : Option String) :
    Except RunResult RunState :=
  match o.llm with
  | .error msg =>
      let stoppedNow := s.stopped || o.stopAfterLLM
      if stoppedNow then .error (stoppedResult { s with stopped := stoppedNow })
      else .error (errorResult msg s)
  | .ok parsed =>
      let s := { s with stopped := s.stopped || o.stopAfterLLM }
      if s.stopped then .error (stoppedResult s)
      else
        let currentSubGoal := currentSubGoalOf s
        let s := { s with history := s.history ++
          [{ step := s.stepCount, thought := parsed.thought,
             action := parsed.action, args := parsed.args }] }
        let p := executeAction s o.env o.now parsed.action parsed.args
        let s := { p.1 with stopped := p.1.stopped || o.stopAfterExec }
        let er := p.2
        if s.stopped then .error (stoppedResult s)
        else if er.done then
          .error (finishedResult
            (match er.result with | .str msg => msg | .obj r => r.jsonDump) s)
        else afterExecution o s currentSubGoal parsed er.result

/-- One iteration of the `while` loop (lines 2034–2467): state validation,
the step increment, the cooperative-stop check, the tracker auto-finish
check, then `loopLLM`.  `.error r` is a loop exit with result `r`; `.ok`
carries the next iteration's state. -/
def loopBody (o : StepOracle) (rs : RunState) : Except RunResult RunState :=
  let s := rs.ag
  if validateTaskState s = false then
    .error (errorResult "State validation failed" s)
  else
    let s := { s with stepCount := s.stepCount + 1 }
    let s := { s with stopped := s.stopped || o.stopBeforeStep }
    if s.stopped then .error (stoppedResult s)
    else
      match s.progressTracker with
      | some tracker =>
          if tracker.isComplete then .error (subGoalsCompleteResult tracker s)
          else loopLLM o s rs.lastSnapshot
      | none => loopLLM o s rs.lastSnapshot

/-- Lines 2490–2521: the two results reachable when the `while` guard
fails. -/
def postLoopResult (rs : RunState) : RunResult :=
  if rs.ag.stopped then stoppedResult rs.ag else incompleteResult rs.ag

/-- The `while (stepCount < maxSteps && !stopped)` loop.  `fuel` is a
structural-recursion bound; every call site passes at least
`maxSteps - stepCount`, which the guard plus the per-iteration step
increment make sufficient, so the fuel-exhausted inner branch is
unreachable (it conservatively reports the post-loop result). -/
def runLoop (oracle : Nat → StepOracle) : Nat → RunState → RunResult
  | 0, rs =>
      if rs.ag.stepCount < rs.ag.maxSteps ∧ rs.ag.stopped = false then
        match loopBody (oracle rs.ag.stepCount) rs with
        | .error r => r
        | .ok rs' => postLoopResult rs'
      else postLoopResult rs
  | fuel + 1, rs =>
      if rs.ag.stepCount < rs.ag.maxSteps ∧ rs.ag.stopped = false then
        match loopBody (oracle rs.ag.stepCount) rs with
        | .error r => r
        | .ok rs' => runLoop oracle fuel rs'
      else postLoopResult rs

/-- The task-planning phase of `run()` (lines 1972–2028): store the plan,
adopt its positive step budget as `maxSteps`, construct a `ProgressTracker`
when sub-goals exist; on a planner exception (`none`) fall back to a simple
task with no sub-goals (the catch does not touch `maxSteps`, and a previous
run's tracker survives when the new plan has no sub-goals). -/
def runPlanning (planOpt : Option Plan) (s : AgentState) : AgentState :=
  match planOpt with
  | some plan =>
      let s := { s with taskState :=
        { s.taskState with subGoals := plan.subGoals,
                           stepBudget := some plan.stepBudget } }
      let s := if plan.stepBudget > 0 then { s with maxSteps := plan.stepBudget } else s
      if plan.subGoals.length > 0 then
        { s with progressTracker := some (ProgressTracker.init plan.subGoals) }
      else s
  | none =>
      { s with taskState := { s.taskState with subGoals := [], stepBudget := some 30 },
               progressTracker := none }

/-- `run(userTask)`: reset the per-run state, plan, then loop. -/
def run (oracle : Nat → StepOracle) (planOpt : Option Plan) (task : String)
    (s0 : AgentState) : RunResult :=
  let s := runPlanning planOpt (runEntryReset task s0)
  runLoop oracle s.maxSteps { ag := s }

/-- `n` successive detections of the same (legacy, non-productive) loop
pattern with no intervening sub-goal completion, applied through the control
loop's escalation block exactly as `run()` applies them (the current
sub-goal re-fetched each iteration).  Used to state claim C4's behaviour on
concrete detection sequences. -/
def legacyEscalationIter : Nat → AgentState → AgentState
  | 0, s => s
  | n + 1, s =>
      legacyEscalationIter n
        (applyLoopEscalation s (currentSubGoalOf s)
          { detected := true, reason := "same_action_repeated", pattern := "legacy",
            confidence := 100, productive := false } "").1

/-- A run result is of one of the four kinds: it carries an explicit success
marker, an explicit stopped marker, or an explicit error. -/
def isClassified (r : RunResult) : Prop :=
  r.success = true ∨ r.stopped = true ∨ r.error.isSome = true

/-- Extract the continuation state of a loop iteration (used to state
concrete instances). -/
def okOr (e : Except RunResult RunState) (d : RunState) : RunState :=
  match e with
  | .ok rs => rs
  | .error _ => d

/-! ## End of definitions -/

/-! ## Supporting lemmas -/

namespace TaskPlanner

/-- Every effective step estimate is at least `1`. -/
theorem one_le_effSteps (sg : SubGoal) : 1 ≤ effSteps sg := by
  unfold effSteps
  split
  · omega
  · omega

/-- The source's `reduce` accumulates exactly `effSum`. -/
theorem foldl_effSteps_eq (l : List SubGoal) (acc : Nat) :
    l.foldl (fun sum sg => sum + effSteps sg) acc = acc + effSum l := by
  induction l generalizing acc with
  | nil => simp [effSum]
  | cons sg rest ih => simp [effSum, ih, Nat.add_assoc]

/-- A list has at least as many effective steps as elements. -/
theorem length_le_effSum (l : List SubGoal) : l.length ≤ effSum l := by
  induction l with
  | nil => simp [effSum]
  | cons sg rest ih =>
      have h := one_le_effSteps sg
      simp only [effSum, List.map_cons, List.sum_cons, List.length_cons] at *
      omega

/-- Integer division is superadditive. -/
theorem div_add_div_le (a b c : Nat) : a / c + b / c ≤ (a + b) / c := by
  rcases Nat.eq_zero_or_pos c with h | h
  · subst h; simp
  · rw [Nat.le_div_iff_mul_le h, Nat.add_mul]
    exact Nat.add_le_add (Nat.div_mul_le_self a c) (Nat.div_mul_le_self b c)

/-- The raw shares of the non-last sub-goals sum to at most the proportional
share of their combined weight. -/
theorem rawsSum_le (B T : Nat) : ∀ l : List SubGoal,
    rawsSum B T l ≤ B * nonLastEff l / T := by
  intro l
  induction l with
  | nil => simp [rawsSum, nonLastEff]
  | cons sg rest ih =>
      cases rest with
      | nil => simp [rawsSum, nonLastEff]
      | cons sg' rest' =>
          calc rawsSum B T (sg :: sg' :: rest')
              = rawShare B T sg + rawsSum B T (sg' :: rest') := rfl
            _ ≤ B * effSteps sg / T + B * nonLastEff (sg' :: rest') / T :=
                Nat.add_le_add_left ih _
            _ ≤ (B * effSteps sg + B * nonLastEff (sg' :: rest')) / T :=
                div_add_div_le _ _ _
            _ = B * nonLastEff (sg :: sg' :: rest') / T := by
                rw [← Nat.mul_add]; rfl

/-- The non-last weight is strictly below the total weight. -/
theorem nonLastEff_lt_effSum : ∀ l : List SubGoal, l ≠ [] →
    nonLastEff l + 1 ≤ effSum l := by
  intro l
  induction l with
  | nil => intro h; exact absurd rfl h
  | cons sg rest ih =>
      intro _
      cases rest with
      | nil =>
          have := one_le_effSteps sg
          simp [nonLastEff, effSum]
          omega
      | cons sg' rest' =>
          have h := ih (by simp)
          simp only [nonLastEff, effSum, List.map_cons, List.sum_cons] at *
          omega

/-- With `T` the total weight, the raw shares of the non-last sub-goals never
exhaust the budget. -/
theorem rawsSum_lt_budget (B : Nat) (hB : 0 < B) (l : List SubGoal)
    (hl : l ≠ []) : rawsSum B (effSum l) l < B := by
  set T := effSum l with hT
  have hTpos : 0 < T := by
    have h1 : (1 : Nat) ≤ l.length := by
      cases l with
      | nil => exact absurd rfl hl
      | cons a t => simp
    have := length_le_effSum l
    omega
  have h1 : rawsSum B T l ≤ B * nonLastEff l / T := rawsSum_le B T l
  have h2 : nonLastEff l + 1 ≤ T := nonLastEff_lt_effSum l hl
  have h3 : B * nonLastEff l ≤ B * (T - 1) :=
    Nat.mul_le_mul_left B (by omega)
  have h4 : B * nonLastEff l / T ≤ B * (T - 1) / T := Nat.div_le_div_right h3
  have h5 : B * (T - 1) / T < B := by
    rw [Nat.div_lt_iff_lt_mul hTpos]
    have hlt : T - 1 < T := by omega
    exact Nat.mul_lt_mul_of_le_of_lt (le_refl B) hlt hB
  omega

/-- Closed form of the allocation loop: the non-last sub-goals carry their
floored-at-1 shares, the last carries the budget minus the *raw* shares
already counted (itself floored at 1). -/
theorem allocate_map_sum (B T : Nat) : ∀ (l : List SubGoal) (acc : Nat),
    l ≠ [] →
    ((allocate B T l acc).map SubGoal.estimatedSteps).sum
      = (if B - (acc + rawsSum B T l) < 1 then 1 else B - (acc + rawsSum B T l))
        + bumpedSum B T l := by
  intro l
  induction l with
  | nil => intro acc h; exact absurd rfl h
  | cons sg rest ih =>
      intro acc _
      cases rest with
      | nil =>
          simp [allocate, rawsSum, bumpedSum]
      | cons sg' rest' =>
          have h := ih (acc + rawShare B T sg) (by simp)
          simp only [allocate, List.map_cons, List.sum_cons, h,
            rawsSum, bumpedSum]
          have : acc + rawShare B T sg + rawsSum B T (sg' :: rest')
              = acc + (rawShare B T sg + rawsSum B T (sg' :: rest')) := by omega
          rw [this]
          omega

/-- Each floored-at-1 share is the raw share plus one exactly when the raw
share was zero. -/
theorem bumpedSum_eq (B T : Nat) : ∀ l : List SubGoal,
    bumpedSum B T l = rawsSum B T l + zeroShareCount B T l := by
  intro l
  induction l with
  | nil => simp [bumpedSum, rawsSum, zeroShareCount]
  | cons sg rest ih =>
      cases rest with
      | nil => simp [bumpedSum, rawsSum, zeroShareCount]
      | cons sg' rest' =>
          simp only [bumpedSum, rawsSum, zeroShareCount, ih]
          rcases Nat.eq_zero_or_pos (rawShare B T sg) with h | h
          · simp [h]
            omega
          · have h0 : rawShare B T sg ≠ 0 := by omega
            have h1 : ¬ rawShare B T sg < 1 := by omega
            simp [h0, h1]
            omega

end TaskPlanner

/-! ## Claim theorems -/

open TaskPlanner

/-- Claim C8, counterexample: the task `"wander"` contains none of the
spec's four sequence connectives, no extraction keyword and no action verb,
yet `isMultiStep` classifies it multi-step, because the source's
sequence-keyword list also contains `"and"` (a substring of `"wander"`). -/
theorem claim_C8_counterexample :
    isMultiStep "wander" = true ∧ isMultiStepClaim "wander" = false := by
  decide

/-- Claim C8 (amended): `isMultiStep` returns true exactly when the
lowercased text contains one of the sequence connectives `"and"`, `"then"`,
`"after"`, `"next"`, `"followed by"`, or contains an extraction keyword
together with at least one action verb, or contains at least two distinct
action verbs from the fixed vocabulary. -/
theorem claim_C8_theorem (task : String) :
    isMultiStep task = isMultiStepAmended task := by
  by_cases h : task = ""
  · subst h; decide
  · unfold isMultiStep isMultiStepAmended
    rw [if_neg h]

/-- Claim C2, counterexample: for sub-goals with estimates `[1, 1000]` the
budget is `50` but the rebalanced estimates are `[1, 50]`, summing to `51`:
the first share floors to `0`, is raised to `1` only *after* the remainder
was computed, so the sum exceeds the budget. -/
theorem claim_C2_counterexample :
    (calculateStepBudget [{ estimatedSteps := 1 }, { estimatedSteps := 1000 }]).1 = 50 ∧
    ((calculateStepBudget [{ estimatedSteps := 1 }, { estimatedSteps := 1000 }]).2.map
        SubGoal.estimatedSteps).sum = 51 ∧
    ((calculateStepBudget [{ estimatedSteps := 1 }, { estimatedSteps := 1000 }]).2.map
        SubGoal.estimatedSteps).sum
      ≠ (calculateStepBudget [{ estimatedSteps := 1 }, { estimatedSteps := 1000 }]).1 := by
  decide

/-- Claim C2 (amended): `calculateStepBudget` returns 30 for 0 or 1
sub-goals, 50 for 2 or 3, 80 for 4 or 5, and 50 for any other count; and for
2 or more sub-goals the rebalanced `estimatedSteps` values sum to the
returned budget *plus one for every non-last sub-goal whose rounded-down
share was zero* (such a share is raised to 1 only after the last sub-goal's
remainder was computed); in particular the sum equals the budget exactly
when no non-last share floors to zero. -/
theorem claim_C2_theorem (sgs : List SubGoal) :
    (calculateStepBudget sgs).1
      = (if sgs.length = 0 ∨ sgs.length = 1 then 30
         else if sgs.length = 2 ∨ sgs.length = 3 then 50
         else if sgs.length = 4 ∨ sgs.length = 5 then 80
         else 50)
    ∧ (2 ≤ sgs.length →
        ((calculateStepBudget sgs).2.map SubGoal.estimatedSteps).sum
          = (calculateStepBudget sgs).1
            + zeroShareCount (calculateStepBudget sgs).1 (effSum sgs) sgs) := by
  constructor
  · by_cases h1 : sgs.length ≤ 1
    · simp only [calculateStepBudget]
      rw [if_pos h1, if_pos (show sgs.length = 0 ∨ sgs.length = 1 by omega)]
    · simp only [calculateStepBudget]
      rw [if_neg h1]
      split <;> (dsimp only; split_ifs <;> omega)
  · intro h2
    have hne : sgs ≠ [] := by
      cases sgs with
      | nil => simp at h2
      | cons a t => simp
    have hlen : ¬ sgs.length ≤ 1 := by omega
    have hfold : sgs.foldl (fun sum sg => sum + effSteps sg) 0 = effSum sgs := by
      rw [foldl_effSteps_eq]; omega
    have hTpos : 0 < effSum sgs := by
      have h3 := length_le_effSum sgs
      omega
    simp only [calculateStepBudget]
    rw [if_neg hlen]
    simp only [hfold]
    rw [if_pos hTpos]
    set B : Nat :=
      (if 2 ≤ sgs.length ∧ sgs.length ≤ 3 then 50
       else if 4 ≤ sgs.length ∧ sgs.length ≤ 5 then 80
       else 50) with hB
    have hBpos : 0 < B := by
      rw [hB]; split_ifs <;> omega
    dsimp only
    have hsum := allocate_map_sum B (effSum sgs) sgs 0 hne
    have hraw := rawsSum_lt_budget B hBpos sgs hne
    have hnotlt : ¬ B - (0 + rawsSum B (effSum sgs) sgs) < 1 := by omega
    rw [hsum, if_neg hnotlt, bumpedSum_eq]
    omega

/-! ### ProgressTracker lemmas -/

namespace ProgressTracker

/-- `listModify` never changes the length. -/
theorem listModify_length {α : Type} (f : α → α) :
    ∀ (l : List α) (i : Nat), (listModify l i f).length = l.length := by
  intro l
  induction l with
  | nil => intro i; rfl
  | cons x xs ih =>
      intro i
      cases i with
      | zero => rfl
      | succ j => simp [listModify, ih]

/-- One tracker call either leaves the cursor in place or advances it by one
step from strictly inside the list; the sub-goal list keeps its length. -/
theorem applyOp_cases (t : ProgressTracker) (op : TrackerOp) :
    ((applyOp t op).currentSubGoalIndex = t.currentSubGoalIndex ∧
      (applyOp t op).subGoals.length = t.subGoals.length) ∨
    ((applyOp t op).currentSubGoalIndex = t.currentSubGoalIndex + 1 ∧
      (applyOp t op).subGoals.length = t.subGoals.length ∧
      t.currentSubGoalIndex < t.subGoals.length) := by
  cases op with
  | complete r n =>
      unfold applyOp completeCurrentSubGoal getCurrentSubGoal
      by_cases h : t.currentSubGoalIndex ≥ t.subGoals.length
      · left; rw [dif_pos h]; exact ⟨rfl, rfl⟩
      · right
        rw [dif_neg h]
        refine ⟨rfl, ?_, by omega⟩
        simp [listModify_length]
  | skip r =>
      unfold applyOp skipCurrentSubGoal getCurrentSubGoal
      by_cases h : t.currentSubGoalIndex ≥ t.subGoals.length
      · left; rw [dif_pos h]; exact ⟨rfl, rfl⟩
      · right
        rw [dif_neg h]
        refine ⟨rfl, ?_, by omega⟩
        simp [listModify_length]

/-- Once the cursor is at or past the end, every further call is the
identity. -/
theorem applyOp_terminal (t : ProgressTracker)
    (h : t.subGoals.length ≤ t.currentSubGoalIndex) (op : TrackerOp) :
    applyOp t op = t := by
  cases op with
  | complete r n =>
      unfold applyOp completeCurrentSubGoal getCurrentSubGoal
      rw [dif_pos h]
  | skip r =>
      unfold applyOp skipCurrentSubGoal getCurrentSubGoal
      rw [dif_pos h]

/-- Call sequences keep the list length and never decrease the cursor. -/
theorem applyOps_mono : ∀ (ops : List TrackerOp) (t : ProgressTracker),
    t.currentSubGoalIndex ≤ (applyOps t ops).currentSubGoalIndex ∧
    (applyOps t ops).subGoals.length = t.subGoals.length := by
  intro ops
  induction ops with
  | nil => intro t; exact ⟨le_refl _, rfl⟩
  | cons op rest ih =>
      intro t
      have h1 := applyOp_cases t op
      have h2 := ih (applyOp t op)
      unfold applyOps at *
      simp only [List.foldl_cons]
      rcases h1 with ⟨hi, hl⟩ | ⟨hi, hl, _⟩ <;> exact ⟨by omega, by omega⟩

/-- Call sequences preserve the cursor bound. -/
theorem applyOps_bound : ∀ (ops : List TrackerOp) (t : ProgressTracker),
    t.currentSubGoalIndex ≤ t.subGoals.length →
    (applyOps t ops).currentSubGoalIndex ≤ (applyOps t ops).subGoals.length := by
  intro ops
  induction ops with
  | nil => intro t h; exact h
  | cons op rest ih =>
      intro t h
      have h1 := applyOp_cases t op
      unfold applyOps at *
      simp only [List.foldl_cons]
      rcases h1 with ⟨hi, hl⟩ | ⟨hi, hl, hlt⟩ <;> exact ih _ (by omega)

/-- A complete tracker is a fixed point of every call sequence. -/
theorem applyOps_terminal : ∀ (ops : List TrackerOp) (t : ProgressTracker),
    t.subGoals.length ≤ t.currentSubGoalIndex → applyOps t ops = t := by
  intro ops
  induction ops with
  | nil => intro t _; rfl
  | cons op rest ih =>
      intro t h
      unfold applyOps at *
      simp only [List.foldl_cons, applyOp_terminal t h op]
      exact ih t h

end ProgressTracker

/-- Claim C3: for any initial sub-goal list and any two consecutive call
sequences of `completeCurrentSubGoal`/`skipCurrentSubGoal`, the cursor is
non-decreasing and never exceeds `subGoals.length`, `isComplete()` is true
exactly when the cursor has reached `subGoals.length`, and once true it
stays true under any further calls. -/
theorem claim_C3_theorem (sgs : List SubGoal)
    (ops ops' : List ProgressTracker.TrackerOp) :
    (ProgressTracker.applyOps (ProgressTracker.init sgs) ops).currentSubGoalIndex ≤
      (ProgressTracker.applyOps (ProgressTracker.applyOps (ProgressTracker.init sgs) ops)
        ops').currentSubGoalIndex ∧
    (ProgressTracker.applyOps (ProgressTracker.init sgs) ops).currentSubGoalIndex ≤
      (ProgressTracker.applyOps (ProgressTracker.init sgs) ops).subGoals.length ∧
    ((ProgressTracker.applyOps (ProgressTracker.init sgs) ops).isComplete = true ↔
      (ProgressTracker.applyOps (ProgressTracker.init sgs) ops).currentSubGoalIndex =
        (ProgressTracker.applyOps (ProgressTracker.init sgs) ops).subGoals.length) ∧
    ((ProgressTracker.applyOps (ProgressTracker.init sgs) ops).isComplete = true →
      (ProgressTracker.applyOps (ProgressTracker.applyOps (ProgressTracker.init sgs) ops)
        ops').isComplete = true) := by
  set t := ProgressTracker.applyOps (ProgressTracker.init sgs) ops with ht
  have hinit : (ProgressTracker.init sgs).currentSubGoalIndex ≤
      (ProgressTracker.init sgs).subGoals.length := by
    simp [ProgressTracker.init]
  have hbound : t.currentSubGoalIndex ≤ t.subGoals.length :=
    ProgressTracker.applyOps_bound ops _ hinit
  have hmono := ProgressTracker.applyOps_mono ops' t
  refine ⟨hmono.1, hbound, ?_, ?_⟩
  · unfold ProgressTracker.isComplete
    constructor
    · intro h
      have := of_decide_eq_true h
      omega
    · intro h
      exact decide_eq_true (by omega)
  · intro h
    have hc : t.subGoals.length ≤ t.currentSubGoalIndex := by
      have := of_decide_eq_true h
      omega
    rw [ProgressTracker.applyOps_terminal ops' t hc]
    exact h

/-- Claim C3 witness: with two sub-goals, completing both then skipping once
more keeps the cursor at 2 = length, `isComplete` is true there, and stays
true under a further call. -/
theorem claim_C3_witness :
    (ProgressTracker.applyOps
        (ProgressTracker.init [{ id := 1 }, { id := 2 }])
        [ProgressTracker.TrackerOp.complete "a" 0,
         ProgressTracker.TrackerOp.complete "b" 1]).isComplete = true ∧
    (ProgressTracker.applyOps
        (ProgressTracker.applyOps
          (ProgressTracker.init [{ id := 1 }, { id := 2 }])
          [ProgressTracker.TrackerOp.complete "a" 0,
           ProgressTracker.TrackerOp.complete "b" 1])
        [ProgressTracker.TrackerOp.skip "extra"]).isComplete = true :=
  ⟨by decide,
   (claim_C3_theorem [{ id := 1 }, { id := 2 }]
      [ProgressTracker.TrackerOp.complete "a" 0,
       ProgressTracker.TrackerOp.complete "b" 1]
      [ProgressTracker.TrackerOp.skip "extra"]).2.2.2 (by decide)⟩

/-- Claim C7, counterexample: on a tracker with no current sub-goal
(`getCurrentSubGoal()` is `null`), both `completeCurrentSubGoal` and
`skipCurrentSubGoal` log and return `without` advancing: the cursor stays at
0, contradicting the claim that the call "still advances the cursor". -/
theorem claim_C7_counterexample :
    ProgressTracker.getCurrentSubGoal (ProgressTracker.init []) = none ∧
    (ProgressTracker.completeCurrentSubGoal (ProgressTracker.init [])
        "done" 0).currentSubGoalIndex = 0 ∧
    (ProgressTracker.skipCurrentSubGoal (ProgressTracker.init [])
        "stuck").currentSubGoalIndex = 0 := by
  decide

/-- Claim C7 (amended): if `completeCurrentSubGoal` or `skipCurrentSubGoal`
is called when there is no current sub-goal, the call logs the condition and
returns with the tracker unchanged — in particular the cursor does *not*
advance. -/
theorem claim_C7_theorem (t : ProgressTracker) (result reason : String) (now : Nat)
    (h : ProgressTracker.getCurrentSubGoal t = none) :
    ProgressTracker.completeCurrentSubGoal t result now = t ∧
    ProgressTracker.skipCurrentSubGoal t reason = t := by
  constructor
  · unfold ProgressTracker.completeCurrentSubGoal
    rw [h]
  · unfold ProgressTracker.skipCurrentSubGoal
    rw [h]

/-- Claim C7 witness: the amended statement at the empty tracker. -/
theorem claim_C7_witness :
    ProgressTracker.completeCurrentSubGoal (ProgressTracker.init []) "done" 0 =
      ProgressTracker.init [] ∧
    ProgressTracker.skipCurrentSubGoal (ProgressTracker.init []) "stuck" =
      ProgressTracker.init [] :=
  claim_C7_theorem (ProgressTracker.init []) "done" "stuck" 0 (by decide)

/-- Claim C10: `validateAction` is read-only — the translated state it
returns is exactly the input optimizer (counters, cache, retry map and
action history untouched; those change only through the mutating methods),
so a second consecutive call with the same arguments returns the identical
verdict. -/
theorem claim_C10_theorem (opt : ExecutionOptimizer) (action : String)
    (args : Args) (sg : Option SubGoal) :
    (ExecutionOptimizer.validateAction opt action args sg).1 = opt ∧
    (ExecutionOptimizer.validateAction
        (ExecutionOptimizer.validateAction opt action args sg).1 action args sg).2 =
      (ExecutionOptimizer.validateAction opt action args sg).2 := by
  have h1 : (ExecutionOptimizer.validateAction opt action args sg).1 = opt := by
    unfold ExecutionOptimizer.validateAction
    split_ifs <;> rfl
  exact ⟨h1, by rw [h1]⟩

/-- Claim C6, counterexample: `run()` entry does not reset the navigation
history, the observation window, the per-pattern loop-detection counters,
the per-key escalation counts, the optimizer (its counters and retry map)
or a left-over progress tracker, so a second `run()` on a used instance
does not start from the state of a freshly constructed one. -/
theorem claim_C6_counterexample :
    (runEntryReset "task"
        { navigationHistory := ["https://a.example", "https://b.example"]
          lastObservations := ["o1", "o2"]
          loopDetectionState := { sameActionDifferentArgs := { count := 4, detected := true } }
          loopDetectionCount := [("legacy", 2)]
          executionOptimizer := { consecutiveSnapshots := 2, failureRetries := [("click:x", 3)] }
          progressTracker := some (ProgressTracker.init []) }).loopDetectionCount
      ≠ (freshAgent 50).loopDetectionCount ∧
    (runEntryReset "task"
        { navigationHistory := ["https://a.example", "https://b.example"]
          lastObservations := ["o1", "o2"]
          loopDetectionState := { sameActionDifferentArgs := { count := 4, detected := true } }
          loopDetectionCount := [("legacy", 2)]
          executionOptimizer := { consecutiveSnapshots := 2, failureRetries := [("click:x", 3)] }
          progressTracker := some (ProgressTracker.init []) }).navigationHistory
      ≠ (freshAgent 50).navigationHistory ∧
    (runEntryReset "task"
        { navigationHistory := ["https://a.example", "https://b.example"]
          lastObservations := ["o1", "o2"]
          loopDetectionState := { sameActionDifferentArgs := { count := 4, detected := true } }
          loopDetectionCount := [("legacy", 2)]
          executionOptimizer := { consecutiveSnapshots := 2, failureRetries := [("click:x", 3)] }
          progressTracker := some (ProgressTracker.init []) }).lastObservations
      ≠ (freshAgent 50).lastObservations ∧
    (runEntryReset "task"
        { navigationHistory := ["https://a.example", "https://b.example"]
          lastObservations := ["o1", "o2"]
          loopDetectionState := { sameActionDifferentArgs := { count := 4, detected := true } }
          loopDetectionCount := [("legacy", 2)]
          executionOptimizer := { consecutiveSnapshots := 2, failureRetries := [("click:x", 3)] }
          progressTracker := some (ProgressTracker.init []) }).loopDetectionState
      ≠ (freshAgent 50).loopDetectionState ∧
    (runEntryReset "task"
        { navigationHistory := ["https://a.example", "https://b.example"]
          lastObservations := ["o1", "o2"]
          loopDetectionState := { sameActionDifferentArgs := { count := 4, detected := true } }
          loopDetectionCount := [("legacy", 2)]
          executionOptimizer := { consecutiveSnapshots := 2, failureRetries := [("click:x", 3)] }
          progressTracker := some (ProgressTracker.init []) }).executionOptimizer
      ≠ (freshAgent 50).executionOptimizer ∧
    (runEntryReset "task"
        { navigationHistory := ["https://a.example", "https://b.example"]
          lastObservations := ["o1", "o2"]
          loopDetectionState := { sameActionDifferentArgs := { count := 4, detected := true } }
          loopDetectionCount := [("legacy", 2)]
          executionOptimizer := { consecutiveSnapshots := 2, failureRetries := [("click:x", 3)] }
          progressTracker := some (ProgressTracker.init []) }).progressTracker
      ≠ (freshAgent 50).progressTracker := by
  refine ⟨?_, ?_, ?_, ?_, ?_, ?_⟩ <;> decide

/-- Claim C6 (amended): at `run()` entry exactly the per-run fields are
reset — stopped flag, step counter, action history, rolling action-key
window, URL list, snapshot refs, task string and task-state aggregate —
while navigation history, observation window, per-pattern loop-detection
counters, per-key escalation counts, the execution optimizer (including its
cross-run retry counts) and the progress tracker persist from the previous
run (the tracker is replaced later, during planning, only when the new plan
has sub-goals). -/
theorem claim_C6_theorem (s : AgentState) (task : String) :
    (runEntryReset task s).stopped = false ∧
    (runEntryReset task s).stepCount = 0 ∧
    (runEntryReset task s).history = [] ∧
    (runEntryReset task s).lastActions = [] ∧
    (runEntryReset task s).lastUrls = [] ∧
    (runEntryReset task s).currentRefs = [] ∧
    (runEntryReset task s).currentTask = task ∧
    (runEntryReset task s).taskState = {} ∧
    (runEntryReset task s).navigationHistory = s.navigationHistory ∧
    (runEntryReset task s).lastObservations = s.lastObservations ∧
    (runEntryReset task s).loopDetectionState = s.loopDetectionState ∧
    (runEntryReset task s).loopDetectionCount = s.loopDetectionCount ∧
    (runEntryReset task s).executionOptimizer = s.executionOptimizer ∧
    (runEntryReset task s).progressTracker = s.progressTracker ∧
    (runEntryReset task s).maxSteps = s.maxSteps :=
  ⟨rfl, rfl, rfl, rfl, rfl, rfl, rfl, rfl, rfl, rfl, rfl, rfl, rfl, rfl, rfl⟩

/-- Claim C5, counterexample: an action blocked by `validateAction` (a third
consecutive snapshot) makes `executeAction` return the `validationFailed`
result *before* the `recordAction` call: the optimizer's counters and
20-entry history are left untouched on the blocked path, so `recordAction`
is not invoked "regardless of the validation path". -/
theorem claim_C5_counterexample :
    (executeAction { executionOptimizer := { consecutiveSnapshots := 2 } } {} 0
        "snapshot" {}).2.done = false ∧
    (match (executeAction { executionOptimizer := { consecutiveSnapshots := 2 } } {} 0
        "snapshot" {}).2.result with
     | .obj r => r.validationFailed
     | .str _ => false) = true ∧
    (executeAction { executionOptimizer := { consecutiveSnapshots := 2 } } {} 0
        "snapshot" {}).1.executionOptimizer
      = ({ consecutiveSnapshots := 2 } : ExecutionOptimizer) ∧
    ({ consecutiveSnapshots := 2 } : ExecutionOptimizer).actionHistory = [] := by
  refine ⟨?_, ?_, ?_, ?_⟩ <;> decide

/-- Claim C5 (amended): `ExecutionOptimizer.recordAction` is invoked exactly
for the actions that pass `validateAction` and execute through the action
switch: on that path the optimizer becomes `recordAction` of the old state;
an action blocked by `validateAction` returns early with a
`validationFailed` result and leaves the optimizer untouched, as do the
stopped and `finished` early returns. -/
theorem claim_C5_theorem (s : AgentState) (env : ActionResult) (now : Nat)
    (action : String) (args : Args) :
    (s.stopped = false →
      (s.executionOptimizer.validateAction action args (currentSubGoalOf s)).2.valid = true →
      action ≠ "finished" →
      (executeAction s env now action args).1.executionOptimizer
        = s.executionOptimizer.recordAction action args.json env now) ∧
    (s.stopped = false →
      (s.executionOptimizer.validateAction action args (currentSubGoalOf s)).2.valid = false →
      (executeAction s env now action args).1.executionOptimizer = s.executionOptimizer ∧
      (executeAction s env now action args).2.done = false) ∧
    (s.stopped = true →
      (executeAction s env now action args).1.executionOptimizer = s.executionOptimizer) ∧
    (s.stopped = false → action = "finished" →
      (s.executionOptimizer.validateAction action args (currentSubGoalOf s)).2.valid = true →
      (executeAction s env now action args).1.executionOptimizer = s.executionOptimizer) := by
  refine ⟨?_, ?_, ?_, ?_⟩
  · intro hstop hvalid hfin
    unfold executeAction
    rw [if_neg (by simp [hstop])]
    simp only [hvalid]
    rw [if_neg (by simp), if_neg hfin]
    dsimp only
    split <;> rfl
  · intro hstop hvalid
    unfold executeAction
    rw [if_neg (by simp [hstop])]
    simp only [hvalid]
    exact ⟨rfl, rfl⟩
  · intro hstop
    unfold executeAction
    rw [if_pos (by simp [hstop])]
  · intro hstop hfin hvalid
    unfold executeAction
    rw [if_neg (by simp [hstop])]
    simp only [hvalid]
    rw [if_neg (by simp), if_pos hfin]

/-- Claim C5 witness: a plain `wait` on a fresh agent passes validation and
is recorded into the optimizer. -/
theorem claim_C5_witness :
    (({} : AgentState).stopped = false) ∧
    (executeAction {} {} 0 "wait" {}).1.executionOptimizer
      = ({} : AgentState).executionOptimizer.recordAction "wait"
          ({} : Args).json {} 0 :=
  ⟨rfl, (claim_C5_theorem {} {} 0 "wait" {}).1 rfl (by decide) (by decide)⟩

/-- A two-valued confidence is positive when both values are. -/
theorem ite_conf_pos (c : Prop) [Decidable c] (a b : Nat) (ha : 0 < a)
    (hb : 0 < b) : 0 < if c then a else b := by
  split <;> assumption

/-- A two-valued confidence is bounded when both values are. -/
theorem ite_conf_le (c : Prop) [Decidable c] (a b : Nat) (ha : a ≤ 100)
    (hb : b ≤ 100) : (if c then a else b) ≤ 100 := by
  split <;> assumption

/-- Every result of the pattern-2-onward decision chain is either a
no-detection or carries a nonempty reason with a confidence in `(0, 100]`. -/
theorem detectLoopRest_shape (s : AgentState) (observation : String)
    (recentActions recentNames : List String) (productive : Bool) :
    (detectLoopRest s observation recentActions recentNames productive).2.detected = false ∨
    ((detectLoopRest s observation recentActions recentNames productive).2.reason ≠ "" ∧
      0 < (detectLoopRest s observation recentActions recentNames productive).2.confidence ∧
      (detectLoopRest s observation recentActions recentNames productive).2.confidence ≤ 100) := by
  unfold detectLoopRest
  dsimp only
  split
  · -- pattern 2: page-navigation loop, confidence 95
    right; refine ⟨?_, ?_, ?_⟩ <;> (dsimp only; decide)
  · split
    · -- pattern 3: consecutive snapshots, confidence 60/85
      right
      refine ⟨?_, ?_, ?_⟩
      · dsimp only; decide
      · dsimp only; exact ite_conf_pos _ 60 85 (by decide) (by decide)
      · dsimp only; exact ite_conf_le _ 60 85 (by decide) (by decide)
    · split
      · -- pattern 4: snapshot-wait-snapshot, confidence 50/80
        right
        refine ⟨?_, ?_, ?_⟩
        · dsimp only; decide
        · dsimp only; exact ite_conf_pos _ 50 80 (by decide) (by decide)
        · dsimp only; exact ite_conf_le _ 50 80 (by decide) (by decide)
      · split
        · -- legacy: exact repetition, confidence 100
          right; refine ⟨?_, ?_, ?_⟩ <;> (dsimp only; decide)
        · split
          · -- legacy: too many getUrl, confidence 90
            right; refine ⟨?_, ?_, ?_⟩ <;> (dsimp only; decide)
          · split
            · -- legacy: too many snapshots, confidence 85
              right; refine ⟨?_, ?_, ?_⟩ <;> (dsimp only; decide)
            · split
              · -- legacy: too many waits, confidence 70
                right; refine ⟨?_, ?_, ?_⟩ <;> (dsimp only; decide)
              · split
                · -- video special case: no detection, canFinish
                  left; rfl
                · -- default: no detection
                  left; rfl

/-- Claim C9: `detectLoop` is total at its public interface — for every
agent state, action, argument object and observation it returns exactly one
result object, either a no-detection result or a detection carrying a
nonempty reason and a confidence in `(0, 1]` (here in the ×100 scale); the
source's catch-all maps any internal error to the same safe
`{detected: false}` default this embedding ends in. -/
theorem claim_C9_theorem (s : AgentState) (action : String) (args : Args)
    (observation : String) :
    (detectLoop s action args observation).2.detected = false ∨
    ((detectLoop s action args observation).2.reason ≠ "" ∧
      0 < (detectLoop s action args observation).2.confidence ∧
      (detectLoop s action args observation).2.confidence ≤ 100) := by
  unfold detectLoop
  dsimp only
  split
  · -- pattern 1: same action, different args, confidence 50/90
    right
    refine ⟨?_, ?_, ?_⟩
    · dsimp only; decide
    · dsimp only; exact ite_conf_pos _ 50 90 (by decide) (by decide)
    · dsimp only; exact ite_conf_le _ 50 90 (by decide) (by decide)
  · exact detectLoopRest_shape _ _ _ _ _

/-- `Map.set` followed by `get` on the same key reads the written value. -/
theorem assocGet_assocSet (m : List (String × Nat)) (k : String) (v : Nat) :
    assocGet (assocSet m k v) k = some v := by
  induction m with
  | nil => simp [assocSet, assocGet, List.find?]
  | cons p rest ih =>
      obtain ⟨k', v'⟩ := p
      by_cases h : k' = k
      · subst h
        simp [assocSet, assocGet, List.find?]
      · simp only [assocSet, if_neg h]
        simp only [assocGet, List.find?] at ih ⊢
        simp [h, ih]

/-- Claim C4, counterexample: with the same loop-pattern key detected four
times in a row and no intervening sub-goal completion, the control loop
force-skips a sub-goal on the third *and* on the fourth detection (the
per-key counter is never reset, and every count ≥ 3 triggers the skip), so
detections 2–4 contain two skips — more than one skip per 3 detections of
the same key. -/
theorem claim_C4_counterexample :
    (legacyEscalationIter 2
        { progressTracker := some (ProgressTracker.init
            [{ id := 1 }, { id := 2 }, { id := 3 }, { id := 4 }, { id := 5 }]) }).progressTracker.map
      ProgressTracker.currentSubGoalIndex = some 0 ∧
    (legacyEscalationIter 3
        { progressTracker := some (ProgressTracker.init
            [{ id := 1 }, { id := 2 }, { id := 3 }, { id := 4 }, { id := 5 }]) }).progressTracker.map
      ProgressTracker.currentSubGoalIndex = some 1 ∧
    (legacyEscalationIter 4
        { progressTracker := some (ProgressTracker.init
            [{ id := 1 }, { id := 2 }, { id := 3 }, { id := 4 }, { id := 5 }]) }).progressTracker.map
      ProgressTracker.currentSubGoalIndex = some 2 := by
  refine ⟨?_, ?_, ?_⟩ <;> decide

/-- Claim C4 (amended): for every loop-pattern key, with a progress tracker
active, a current sub-goal present and the tracker not complete, a
(non-gated) detection increments the per-key escalation counter by exactly
one, and forces exactly one automatic sub-goal skip precisely when the
incremented count reaches 3 or more — so the third detection of a key with
no intervening completion forces one skip, and since the counter is never
reset, every detection after the third forces a further skip (one skip per
detection from the third onward, not at most one per 3 detections). -/
theorem claim_C4_theorem (s : AgentState) (tracker : ProgressTracker)
    (csg : SubGoal) (loopRes : LoopResult) (obs : String)
    (hdet : loopRes.detected = true)
    (hgate : ¬ (loopRes.productive = true ∧ loopRes.confidence < 70))
    (htr : s.progressTracker = some tracker)
    (hcomp : tracker.isComplete = false) :
    assocGet (applyLoopEscalation s (some csg) loopRes obs).1.loopDetectionCount
        (if loopRes.pattern ≠ "" then loopRes.pattern else loopRes.reason)
      = some ((assocGet s.loopDetectionCount
          (if loopRes.pattern ≠ "" then loopRes.pattern else loopRes.reason)).getD 0 + 1) ∧
    (applyLoopEscalation s (some csg) loopRes obs).1.progressTracker
      = (if (assocGet s.loopDetectionCount
            (if loopRes.pattern ≠ "" then loopRes.pattern else loopRes.reason)).getD 0 + 1 ≥ 3
         then some (tracker.skipCurrentSubGoal
            ("Loop detected 3 times: " ++
              (if loopRes.pattern ≠ "" then loopRes.pattern else loopRes.reason)))
         else some tracker) := by
  have hd : ¬ (loopRes.detected = false) := by simp [hdet]
  unfold applyLoopEscalation
  rw [if_neg hd, if_neg hgate]
  dsimp only
  rw [htr]
  try dsimp only
  generalize (if loopRes.pattern ≠ "" then loopRes.pattern else loopRes.reason) = key
  by_cases h2 : (assocGet s.loopDetectionCount key).getD 0 + 1 ≥ 2
  · rw [if_pos h2]
    try dsimp only
    have hact : (((some csg : Option SubGoal).isSome && !tracker.isComplete) = true) := by
      simp [Option.isSome, hcomp]
    rw [if_pos hact]
    by_cases h3 : (assocGet s.loopDetectionCount key).getD 0 + 1 ≥ 3
    · rw [if_pos h3]
      try dsimp only
      constructor
      · repeat' split
        all_goals exact assocGet_assocSet _ _ _
      · repeat' split
        all_goals rfl
    · rw [if_neg h3]
      refine ⟨assocGet_assocSet _ _ _, ?_⟩
      rw [if_neg h3]
  · rw [if_neg h2]
    refine ⟨assocGet_assocSet _ _ _, ?_⟩
    rw [if_neg (show ¬ (assocGet s.loopDetectionCount key).getD 0 + 1 ≥ 3 by omega)]

/-- Claim C4 witness: a third detection of the `"legacy"` key on a
two-sub-goal tracker bumps the counter to 3 and force-skips the current
sub-goal. -/
theorem claim_C4_witness :
    assocGet (applyLoopEscalation
        { loopDetectionCount := [("legacy", 2)],
          progressTracker := some (ProgressTracker.init [{ id := 1 }, { id := 2 }]) }
        (some { id := 1 })
        { detected := true, reason := "same_action_repeated", pattern := "legacy",
          confidence := 100, productive := false } "").1.loopDetectionCount
        (if ("legacy" : String) ≠ "" then "legacy" else "same_action_repeated")
      = some ((assocGet [("legacy", 2)]
          (if ("legacy" : String) ≠ "" then "legacy" else "same_action_repeated")).getD 0 + 1) ∧
    (applyLoopEscalation
        { loopDetectionCount := [("legacy", 2)],
          progressTracker := some (ProgressTracker.init [{ id := 1 }, { id := 2 }]) }
        (some { id := 1 })
        { detected := true, reason := "same_action_repeated", pattern := "legacy",
          confidence := 100, productive := false } "").1.progressTracker
      = (if (assocGet [("legacy", 2)]
            (if ("legacy" : String) ≠ "" then "legacy" else "same_action_repeated")).getD 0 + 1 ≥ 3
         then some ((ProgressTracker.init [{ id := 1 }, { id := 2 }]).skipCurrentSubGoal
            ("Loop detected 3 times: " ++
              (if ("legacy" : String) ≠ "" then "legacy" else "same_action_repeated")))
         else some (ProgressTracker.init [{ id := 1 }, { id := 2 }])) :=
  claim_C4_theorem
    { loopDetectionCount := [("legacy", 2)],
      progressTracker := some (ProgressTracker.init [{ id := 1 }, { id := 2 }]) }
    (ProgressTracker.init [{ id := 1 }, { id := 2 }])
    { id := 1 }
    { detected := true, reason := "same_action_repeated", pattern := "legacy",
      confidence := 100, productive := false }
    "" rfl (by decide) rfl (by decide)

/-- Claim C2 witness: the search-and-extract pair (estimates `[3, 5]`) has
two sub-goals, and its rebalanced estimates `[18, 32]` sum to the returned
budget `50` with no zero share. -/
theorem claim_C2_witness :
    ((calculateStepBudget [{ estimatedSteps := 3 }, { estimatedSteps := 5 }]).2.map
        SubGoal.estimatedSteps).sum
      = (calculateStepBudget [{ estimatedSteps := 3 }, { estimatedSteps := 5 }]).1
        + zeroShareCount
            (calculateStepBudget [{ estimatedSteps := 3 }, { estimatedSteps := 5 }]).1
            (effSum [{ estimatedSteps := 3 }, { estimatedSteps := 5 }])
            [{ estimatedSteps := 3 }, { estimatedSteps := 5 }] :=
  (claim_C2_theorem [{ estimatedSteps := 3 }, { estimatedSteps := 5 }]).2 (by decide)

/-! ### Frame lemmas for the run-loop proof (claim C1) -/

/-- `executeAction` never touches the step counter, the budget, the LLM
history, the stopped flag or the tracker. -/
theorem executeAction_frame (s : AgentState) (env : ActionResult) (now : Nat)
    (action : String) (args : Args) :
    (executeAction s env now action args).1.stepCount = s.stepCount ∧
    (executeAction s env now action args).1.maxSteps = s.maxSteps ∧
    (executeAction s env now action args).1.history = s.history ∧
    (executeAction s env now action args).1.stopped = s.stopped ∧
    (executeAction s env now action args).1.progressTracker = s.progressTracker := by
  unfold executeAction
  dsimp only
  repeat' split
  all_goals exact ⟨rfl, rfl, rfl, rfl, rfl⟩

/-- The pattern-2-onward chain never touches the step counter, the budget,
the history or the tracker. -/
theorem detectLoopRest_frame (s : AgentState) (observation : String)
    (recentActions recentNames : List String) (productive : Bool) :
    (detectLoopRest s observation recentActions recentNames productive).1.stepCount
        = s.stepCount ∧
    (detectLoopRest s observation recentActions recentNames productive).1.maxSteps
        = s.maxSteps ∧
    (detectLoopRest s observation recentActions recentNames productive).1.history
        = s.history ∧
    (detectLoopRest s observation recentActions recentNames productive).1.progressTracker
        = s.progressTracker := by
  unfold detectLoopRest
  dsimp only
  repeat' split
  all_goals exact ⟨rfl, rfl, rfl, rfl⟩

/-- `detectLoop` never touches the step counter, the budget, the history or
the tracker. -/
theorem detectLoop_frame (s : AgentState) (action : String) (args : Args)
    (observation : String) :
    (detectLoop s action args observation).1.stepCount = s.stepCount ∧
    (detectLoop s action args observation).1.maxSteps = s.maxSteps ∧
    (detectLoop s action args observation).1.history = s.history ∧
    (detectLoop s action args observation).1.progressTracker = s.progressTracker := by
  unfold detectLoop
  dsimp only
  split
  · exact ⟨rfl, rfl, rfl, rfl⟩
  · exact detectLoopRest_frame _ _ _ _ _

/-- The escalation block never touches the step counter, the budget or the
history. -/
theorem applyLoopEscalation_frame (s : AgentState) (csg : Option SubGoal)
    (loopRes : LoopResult) (obs : String) :
    (applyLoopEscalation s csg loopRes obs).1.stepCount = s.stepCount ∧
    (applyLoopEscalation s csg loopRes obs).1.maxSteps = s.maxSteps ∧
    (applyLoopEscalation s csg loopRes obs).1.history = s.history := by
  unfold applyLoopEscalation
  dsimp only
  repeat' split
  all_goals exact ⟨rfl, rfl, rfl⟩

/-- `detectPhase` always continues, preserving the step counter, the budget
and the history. -/
theorem detectPhase_spec (s : AgentState) (csg : Option SubGoal)
    (parsed : Parsed) (ls : Option String) (obs : String) :
    (∀ r, detectPhase s csg parsed ls obs = .error r → False) ∧
    (∀ rs', detectPhase s csg parsed ls obs = .ok rs' →
      rs'.ag.stepCount = s.stepCount ∧ rs'.ag.maxSteps = s.maxSteps ∧
      rs'.ag.history = s.history) := by
  have h1 := detectLoop_frame s parsed.action parsed.args obs
  constructor
  · intro r hr
    unfold detectPhase at hr
    exact Except.noConfusion hr
  · intro rs' hrs
    unfold detectPhase at hrs
    dsimp only at hrs
    have h := Except.ok.inj hrs
    subst h
    exact ⟨(applyLoopEscalation_frame _ _ _ _).1.trans h1.1,
           (applyLoopEscalation_frame _ _ _ _).2.1.trans h1.2.1,
           (applyLoopEscalation_frame _ _ _ _).2.2.trans h1.2.2.1⟩

/-- The post-execution phase: every exit result is classified and carries
the current history; every continuation preserves step counter, budget and
history. -/
theorem afterExecution_spec (o : StepOracle) (s : AgentState)
    (csg : Option SubGoal) (parsed : Parsed) (ev : ExecVal) :
    (∀ r, afterExecution o s csg parsed ev = .error r →
      isClassified r ∧ r.history = s.history) ∧
    (∀ rs', afterExecution o s csg parsed ev = .ok rs' →
      rs'.ag.stepCount = s.stepCount ∧ rs'.ag.maxSteps = s.maxSteps ∧
      rs'.ag.history = s.history) := by
  constructor
  · intro r hr
    unfold afterExecution at hr
    dsimp only at hr
    repeat' split at hr
    all_goals
      first
        | exact ((detectPhase_spec _ _ _ _ _).1 r hr).elim
        | (have h := Except.error.inj hr; subst h; exact ⟨Or.inl rfl, rfl⟩)
        | exact Except.noConfusion hr
  · intro rs' hrs
    unfold afterExecution at hrs
    dsimp only at hrs
    repeat' split at hrs
    all_goals try exact Except.noConfusion hrs
    all_goals try (have h := Except.ok.inj hrs; subst h; exact ⟨rfl, rfl, rfl⟩)
    all_goals
      obtain ⟨h1, h2, h3⟩ := (detectPhase_spec _ _ _ _ _).2 rs' hrs
      exact ⟨h1, h2, h3⟩

/-- The LLM/execute phase: every exit result is classified with at most one
new history entry; every continuation keeps the step counter and budget and
adds at most one history entry. -/
theorem loopLLM_spec (o : StepOracle) (s : AgentState) (ls : Option String) :
    (∀ r, loopLLM o s ls = .error r →
      isClassified r ∧ r.history.length ≤ s.history.length + 1) ∧
    (∀ rs', loopLLM o s ls = .ok rs' →
      rs'.ag.stepCount = s.stepCount ∧ rs'.ag.maxSteps = s.maxSteps ∧
      rs'.ag.history.length ≤ s.history.length + 1) := by
  constructor
  · intro r hr
    unfold loopLLM at hr
    dsimp only at hr
    split at hr
    · -- LLM transport/API failure
      split at hr
      · have h := Except.error.inj hr; subst h
        exact ⟨Or.inr (Or.inl rfl), Nat.le_succ _⟩
      · have h := Except.error.inj hr; subst h
        exact ⟨Or.inr (Or.inr rfl), Nat.le_succ _⟩
    · -- parsed response
      split at hr
      · -- stop observed after the LLM call
        have h := Except.error.inj hr; subst h
        exact ⟨Or.inr (Or.inl rfl), Nat.le_succ _⟩
      · split at hr
        · -- stop observed after the action
          have h := Except.error.inj hr; subst h
          refine ⟨Or.inr (Or.inl rfl), ?_⟩
          dsimp only [stoppedResult]
          rw [(executeAction_frame _ _ _ _ _).2.2.1]
          simp
        · split at hr
          · -- finished
            have h := Except.error.inj hr; subst h
            refine ⟨Or.inl rfl, ?_⟩
            dsimp only [finishedResult]
            rw [(executeAction_frame _ _ _ _ _).2.2.1]
            simp
          · -- post-execution phase
            obtain ⟨hc, hh⟩ := (afterExecution_spec _ _ _ _ _).1 r hr
            refine ⟨hc, ?_⟩
            rw [hh]
            dsimp only
            rw [(executeAction_frame _ _ _ _ _).2.2.1]
            simp
  · intro rs' hrs
    unfold loopLLM at hrs
    dsimp only at hrs
    split at hrs
    · split at hrs <;> exact Except.noConfusion hrs
    · split at hrs
      · exact Except.noConfusion hrs
      · split at hrs
        · exact Except.noConfusion hrs
        · split at hrs
          · exact Except.noConfusion hrs
          · obtain ⟨h1, h2, h3⟩ := (afterExecution_spec _ _ _ _ _).2 rs' hrs
            refine ⟨?_, ?_, ?_⟩
            · exact h1.trans (executeAction_frame _ _ _ _ _).1
            · exact h2.trans (executeAction_frame _ _ _ _ _).2.1
            · rw [h3]
              dsimp only
              rw [(executeAction_frame _ _ _ _ _).2.2.1]
              simp

/-- One loop iteration: every exit result is classified with at most one
new history entry; every continuation increments the step counter by
exactly one, keeps the budget, and adds at most one history entry. -/
theorem loopBody_spec (o : StepOracle) (rs : RunState) :
    (∀ r, loopBody o rs = .error r →
      isClassified r ∧ r.history.length ≤ rs.ag.history.length + 1) ∧
    (∀ rs', loopBody o rs = .ok rs' →
      rs'.ag.stepCount = rs.ag.stepCount + 1 ∧ rs'.ag.maxSteps = rs.ag.maxSteps ∧
      rs'.ag.history.length ≤ rs.ag.history.length + 1) := by
  constructor
  · intro r hr
    unfold loopBody at hr
    dsimp only at hr
    split at hr
    · -- state-validation abort
      have h := Except.error.inj hr; subst h
      exact ⟨Or.inr (Or.inr rfl), Nat.le_succ _⟩
    · split at hr
      · -- cooperative stop at the top of the body
        have h := Except.error.inj hr; subst h
        exact ⟨Or.inr (Or.inl rfl), Nat.le_succ _⟩
      · split at hr
        · -- a tracker is active
          split at hr
          · -- all sub-goals complete: auto-finish
            have h := Except.error.inj hr; subst h
            exact ⟨Or.inl rfl, Nat.le_succ _⟩
          · have h := (loopLLM_spec _ _ _).1 r hr
            exact h
        · have h := (loopLLM_spec _ _ _).1 r hr
          exact h
  · intro rs' hrs
    unfold loopBody at hrs
    dsimp only at hrs
    split at hrs
    · exact Except.noConfusion hrs
    · split at hrs
      · exact Except.noConfusion hrs
      · split at hrs
        · split at hrs
          · exact Except.noConfusion hrs
          · have h := (loopLLM_spec _ _ _).2 rs' hrs
            exact ⟨h.1, h.2.1, h.2.2⟩
        · have h := (loopLLM_spec _ _ _).2 rs' hrs
          exact ⟨h.1, h.2.1, h.2.2⟩

/-- The post-loop results (stopped / max-steps-reached) are classified and
carry the loop's history. -/
theorem postLoopResult_spec (rs : RunState) :
    isClassified (postLoopResult rs) ∧ (postLoopResult rs).history = rs.ag.history := by
  unfold postLoopResult
  split
  · exact ⟨Or.inr (Or.inl rfl), rfl⟩
  · exact ⟨Or.inr (Or.inr rfl), rfl⟩

/-- The step loop, for any fuel: under the loop invariant (history no longer
than the step count, step count within the budget), the result is
classified and its history is bounded by the budget. -/
theorem runLoop_spec (oracle : Nat → StepOracle) :
    ∀ (fuel : Nat) (rs : RunState),
      rs.ag.history.length ≤ rs.ag.stepCount →
      rs.ag.stepCount ≤ rs.ag.maxSteps →
      isClassified (runLoop oracle fuel rs) ∧
      (runLoop oracle fuel rs).history.length ≤ rs.ag.maxSteps := by
  intro fuel
  induction fuel with
  | zero =>
      intro rs h1 h2
      unfold runLoop
      by_cases hg : rs.ag.stepCount < rs.ag.maxSteps ∧ rs.ag.stopped = false
      · rw [if_pos hg]
        rcases hb : loopBody (oracle rs.ag.stepCount) rs with r | rs₁ <;> dsimp only
        · obtain ⟨hc, hl⟩ := (loopBody_spec _ _).1 r hb
          exact ⟨hc, by omega⟩
        · obtain ⟨hstep, hmax, hlen⟩ := (loopBody_spec _ _).2 rs₁ hb
          obtain ⟨hc, hh⟩ := postLoopResult_spec rs₁
          refine ⟨hc, ?_⟩
          rw [hh]
          omega
      · rw [if_neg hg]
        obtain ⟨hc, hh⟩ := postLoopResult_spec rs
        refine ⟨hc, ?_⟩
        rw [hh]
        omega
  | succ fuel ih =>
      intro rs h1 h2
      unfold runLoop
      by_cases hg : rs.ag.stepCount < rs.ag.maxSteps ∧ rs.ag.stopped = false
      · rw [if_pos hg]
        rcases hb : loopBody (oracle rs.ag.stepCount) rs with r | rs₁ <;> dsimp only
        · obtain ⟨hc, hl⟩ := (loopBody_spec _ _).1 r hb
          exact ⟨hc, by omega⟩
        · obtain ⟨hstep, hmax, hlen⟩ := (loopBody_spec _ _).2 rs₁ hb
          obtain ⟨hc, hh⟩ := ih rs₁ (by omega) (by omega)
          refine ⟨hc, ?_⟩
          omega
      · rw [if_neg hg]
        obtain ⟨hc, hh⟩ := postLoopResult_spec rs
        refine ⟨hc, ?_⟩
        rw [hh]
        omega

/-- At the start of the loop the history is empty and the step counter is
zero. -/
theorem runStart_state (planOpt : Option Plan) (task : String) (s0 : AgentState) :
    (runPlanning planOpt (runEntryReset task s0)).history = [] ∧
    (runPlanning planOpt (runEntryReset task s0)).stepCount = 0 := by
  unfold runPlanning runEntryReset
  cases planOpt with
  | none => exact ⟨rfl, rfl⟩
  | some plan =>
      dsimp only
      repeat' split
      all_goals exact ⟨rfl, rfl⟩

/-- Claim C1: every invocation of `run(task)` terminates with exactly one
result that is of one of the four kinds — success, stopped, incomplete
(max steps) or error — carrying the run's action history; the history never
exceeds the run's step budget (`maxSteps` after planning) because the loop
runs at most `maxSteps` iterations: each iteration that continues
increments `stepCount` by exactly one (so it is monotonically
non-decreasing) and leaves `maxSteps` unchanged, and the loop guard bounds
`stepCount` by `maxSteps`.  The LLM client and environment calls are the
oracle inputs, assumed (by totality of the oracle) to return. -/
theorem claim_C1_theorem :
    (∀ (oracle : Nat → StepOracle) (planOpt : Option Plan) (task : String)
        (s0 : AgentState),
        isClassified (run oracle planOpt task s0) ∧
        (run oracle planOpt task s0).history.length ≤
          (runPlanning planOpt (runEntryReset task s0)).maxSteps) ∧
    (∀ (o : StepOracle) (rs rs' : RunState),
        loopBody o rs = .ok rs' →
        rs'.ag.stepCount = rs.ag.stepCount + 1 ∧
        rs'.ag.maxSteps = rs.ag.maxSteps) := by
  constructor
  · intro oracle planOpt task s0
    unfold run
    dsimp only
    obtain ⟨hh, hs⟩ := runStart_state planOpt task s0
    exact runLoop_spec oracle _ { ag := runPlanning planOpt (runEntryReset task s0) }
      (by dsimp only; rw [hh, hs]; simp)
      (by dsimp only; rw [hs]; exact Nat.zero_le _)
  · intro o rs rs' h
    obtain ⟨h1, h2, _⟩ := (loopBody_spec o rs).2 rs' h
    exact ⟨h1, h2⟩

/-- Claim C1 witness: a concrete continuing iteration (a `wait` decision on
a fresh two-step agent) increments the step counter from 0 to exactly 1. -/
theorem claim_C1_witness :
    loopBody ({ llm := .ok { action := "wait" } } : StepOracle)
        ({ ag := { maxSteps := 2 } } : RunState)
      = .ok (okOr (loopBody ({ llm := .ok { action := "wait" } } : StepOracle)
          ({ ag := { maxSteps := 2 } } : RunState)) default) ∧
    (okOr (loopBody ({ llm := .ok { action := "wait" } } : StepOracle)
        ({ ag := { maxSteps := 2 } } : RunState)) default).ag.stepCount
      = ({ ag := { maxSteps := 2 } } : RunState).ag.stepCount + 1 :=
  ⟨rfl,
   (claim_C1_theorem.2 ({ llm := .ok { action := "wait" } } : StepOracle)
      ({ ag := { maxSteps := 2 } } : RunState)
      (okOr (loopBody ({ llm := .ok { action := "wait" } } : StepOracle)
        ({ ag := { maxSteps := 2 } } : RunState)) default) rfl).1⟩

end BrowserAgentProofs

